import Mathlib

/-!
# Schedule editing in `app.js`

A shallow embedding of the schedule-management part of `src/app.js`
(lines 990-1384 together with the modal helper of lines 160-236 and the
view-switching listener of lines 342-356) and the properties of the
draft/committed schedule state machine and of its navigation guard, followed
by the persistent store and the room handlers (lines 424-501, 593-632,
717-748 and 1386-1515).

Modelling conventions.

* The module-level variables `schedule`, `tempSchedule` and `scheduleChanged`
  and the pieces of the DOM the handlers read back (the pending
  `.new-schedule-row` rows, the `active` classes of views and nav buttons, the
  `unsaved` class of the save button, the modal dialog, the toasts) are the
  fields of `AppState`; every event listener is a function on `AppState`.
* Lean values are immutable, so a slot is a value and not a heap object.  The
  only place where the source lets the draft and the committed array share slot
  objects is the initial `tempSchedule = [...schedule]`; the one listener that
  mutates a slot object in place (the enabled checkbox) is attached by
  `renderSchedule`, which first runs after `tempSchedule` has been replaced by
  a deep copy, so the sharing cannot be observed.
* `localStorage` maps a key to the JSON document whose text is stored under
  it; `JSON.stringify` builds that document and `JSON.parse` reads it back.
* `setTimeout` callbacks run at once: the 600 ms and 400 ms delays are
  cosmetic.
* A listener that throws (a `TypeError` from dereferencing `undefined`) is an
  `Outcome` carrying the error together with the state it leaves behind.
* `String.prototype.toLowerCase` is a function of the platform: the room
  handlers take it as the parameter `toLowerCase`.  Where a concrete value is
  computed, `asciiToLowerCase` stands for it; the two agree on strings of ASCII
  characters.
* The dialog buttons are looked up once at load (lines 144-146) and `showModal`
  replaces them in the document by clones: `AppState.modalButtonsAttached`
  records whether that has happened, and `showModal` throws once it has.
* The draft of an `AppState` is an array of slots.  The one listener that can
  leave holes in it, the save button of an edit row that outlived its slot, is
  `saveSlotBtnClick`, whose result is a `SparseDraft`.
-/

namespace SmartLighting

/-! ## Data model -/

/-- Schedule slot, the object literal `{ day, startTime, mode, endTime, enabled }`. -/
structure Slot where
  day : String
  startTime : String
  mode : String
  endTime : String
  enabled : Bool
deriving DecidableEq, Repr

/-- JSON documents, the contents of a `localStorage` entry.  A number is the
rational value of its decimal literal. -/
inductive Json where
  | null : Json
  | bool (b : Bool) : Json
  | num (n : ℚ) : Json
  | str (s : String) : Json
  | arr (items : List Json) : Json
  | obj (members : List (String × Json)) : Json

/-- JavaScript truthiness of a parsed document: `null`, `false`, `0` and `""`
are falsy, every array and object is truthy. -/
def Json.truthy : Json → Bool
  | .null => false
  | .bool b => b
  | .num n => n != 0
  | .str s => s != ""
  | .arr _ => true
  | .obj _ => true

/-- Browser storage: `none` is the `null` that `getItem` gives for an absent key. -/
abbrev LocalStorage := String → Option Json

/-- Storage method `localStorage.setItem(key, value)`: whole-value replace. -/
def LocalStorage.setItem (ls : LocalStorage) (key : String) (value : Json) : LocalStorage :=
  fun k => if k = key then some value else ls k

/-- Storage method `localStorage.getItem(key)`. -/
def LocalStorage.getItem (ls : LocalStorage) (key : String) : Option Json :=
  ls key

/-- Encoding `JSON.stringify(slot)`: an object with the five members in the
order of the object literal. -/
def Slot.toJson (s : Slot) : Json :=
  .obj [("day", .str s.day), ("startTime", .str s.startTime), ("mode", .str s.mode),
    ("endTime", .str s.endTime), ("enabled", .bool s.enabled)]

/-- Reading a parsed object as a slot: the five members by name, in any order. -/
def Slot.ofJson? : Json → Option Slot
  | .obj kvs =>
    match kvs.lookup "day", kvs.lookup "startTime", kvs.lookup "mode",
      kvs.lookup "endTime", kvs.lookup "enabled" with
    | some (.str d), some (.str st), some (.str m), some (.str e), some (.bool b) =>
      some { day := d, startTime := st, mode := m, endTime := e, enabled := b }
    | _, _, _, _, _ => none
  | _ => none

/-- Encoding `JSON.stringify(schedule)` of an array of slots. -/
def stringifySchedule (schedule : List Slot) : Json :=
  .arr (schedule.map Slot.toJson)

/-- Reading the items of a parsed array as slots, in order. -/
def parseSlots : List Json → Option (List Slot)
  | [] => some []
  | item :: items =>
    match Slot.ofJson? item, parseSlots items with
    | some slot, some slots => some (slot :: slots)
    | _, _ => none

/-- Decoding `JSON.parse(text)` read as an array of slots; `none` when the document
is not an array of slot objects. -/
def parseSchedule : Json → Option (List Slot)
  | .arr items => parseSlots items
  | _ => none

/-- Deep copy `JSON.parse(JSON.stringify(xs))` of a schedule.  The `none` branch is
never taken (`parseSchedule_stringifySchedule`). -/
def jsonClone (xs : List Slot) : List Slot :=
  match parseSchedule (stringifySchedule xs) with
  | some ys => ys
  | none => xs

/-- Source function `getSchedule()`: `JSON.parse(localStorage.getItem("schedule")) || []`.
An absent key parses to `null`; a falsy document is replaced by `[]`. -/
def getSchedule (ls : LocalStorage) : Option (List Slot) :=
  match ls.getItem "schedule" with
  | none => some []
  | some doc => if doc.truthy then parseSchedule doc else some []

/-- Source function `saveSchedule(schedule)`:
`localStorage.setItem("schedule", JSON.stringify(schedule))`. -/
def saveSchedule (ls : LocalStorage) (schedule : List Slot) : LocalStorage :=
  ls.setItem "schedule" (stringifySchedule schedule)

/-- Values of the five controls of a table row being filled in: a
`.new-schedule-row`, or an existing row switched to edit mode. -/
structure RowForm where
  day : String
  startTime : String
  mode : String
  endTime : String
  enabled : Bool
deriving DecidableEq, Repr

/-- Object literal `{ day, startTime, mode, endTime, enabled }` built from a row. -/
def RowForm.toSlot (r : RowForm) : Slot :=
  { day := r.day, startTime := r.startTime, mode := r.mode, endTime := r.endTime,
    enabled := r.enabled }

/-- Callbacks handed to `window.UI.modal`, one constructor per closure of the source. -/
inductive ModalAction where
  | nothing : ModalAction
  | saveScheduleWithFeedback : ModalAction
  | clearSchedule : ModalAction
  | discardChanges (targetView : String) : ModalAction
  | stayOnSchedule : ModalAction
deriving DecidableEq, Repr

/-- Settings of the dialog shown by `showModal(title, content, options)`. -/
structure Modal where
  title : String
  content : String
  confirmText : String
  cancelText : String
  onConfirm : ModalAction
  onCancel : ModalAction
deriving DecidableEq, Repr

/-- Toast notification `showToast(message, type)`. -/
structure Toast where
  message : String
  type : String
deriving DecidableEq, Repr

/-- Exceptions a listener can raise. -/
inductive JsError where
  | typeError : JsError
deriving DecidableEq, Repr

/-- Program state: the module-level variables and the DOM read back by the handlers.
`modal` is the dialog on screen with the callbacks of its buttons;
`modalButtonsAttached` tells whether the dialog buttons found at load
(`modalConfirmBtn`, `modalCancelBtn`, `modalCloseBtn`, lines 144-146) are still
in the document. -/
structure AppState where
  localStorage : LocalStorage
  schedule : List Slot
  tempSchedule : List Slot
  scheduleChanged : Bool
  newScheduleRows : List RowForm
  saveBtnUnsaved : Bool
  views : List (String × Bool)
  navButtons : List (String × Bool)
  modal : Option Modal
  toasts : List Toast
  modalButtonsAttached : Bool

/-- Result of running a listener: the state afterwards and the exception, if any,
that ended it. -/
structure Outcome where
  state : AppState
  thrown : Option JsError

/-- Array read `xs[index]`: `undefined` (here `none`) outside `0 .. length - 1`. -/
def arrayGet {α : Type} (xs : List α) (index : Int) : Option α :=
  if 0 ≤ index then xs[index.toNat]? else none

/-- String truthiness: only the empty string is falsy. -/
def truthy (v : String) : Bool := v != ""

/-! ## Presentation helpers -/

/-- UI helper `showToast(message, type)`: the notification is appended to the container. -/
def showToast (s : AppState) (message type : String) : AppState :=
  { s with toasts := s.toasts ++ [{ message := message, type := type }] }

/-- UI helper `showModal(title, content, options)` (lines 160-223).  Title and body
are written first.  The buttons it works on are the elements found once at
load: the first call replaces them in the document by clones, gives the clones
the callbacks and shows the dialog.  On every later call
`modalConfirmBtn.parentNode` is `null` and line 193 throws a `TypeError`
before any callback is installed and before the dialog is made visible; a
dialog that is still on screen then keeps its buttons and callbacks under the
new title and body. -/
def showModal (s : AppState) (m : Modal) : Outcome :=
  if s.modalButtonsAttached then
    { state := { s with modal := some m, modalButtonsAttached := false }, thrown := none }
  else
    { state :=
        { s with
          modal := s.modal.map fun shown => { shown with title := m.title, content := m.content } },
      thrown := some .typeError }

/-- UI helper `hideModal()`: the dialog is hidden and the key listener removed. -/
def hideModal (s : AppState) : AppState :=
  { s with modal := none }

/-- Source function `renderSchedule()`: `scheduleBody.innerHTML = ""` drops every row
of the table, the pending `.new-schedule-row` rows included, and one display row
per slot of `tempSchedule` is rebuilt. -/
def renderSchedule (s : AppState) : AppState :=
  { s with newScheduleRows := [] }

/-- Source function `updateSaveButtonStatus()`: the save button carries the class
`unsaved` exactly when `scheduleChanged` holds. -/
def updateSaveButtonStatus (s : AppState) : AppState :=
  { s with saveBtnUnsaved := s.scheduleChanged }

/-- View switch `views.forEach` / `navButtons.forEach` of the navigation callbacks:
the element whose id (or `data-view`) equals the target gets class `active`,
every other one loses it. -/
def activate (target : String) (elems : List (String × Bool)) : List (String × Bool) :=
  elems.map fun e => (e.1, e.1 == target)

/-! ## Draft schedule handlers -/

/-- Click listener of the `schedule-view` nav button (lines 1105-1114), the
specification's `beginEditing()`. -/
def scheduleViewClick (s : AppState) : AppState :=
  updateSaveButtonStatus
    (renderSchedule { s with tempSchedule := jsonClone s.schedule, scheduleChanged := false })

/-- Change listener of the enabled checkbox of display row `index` (lines 1083-1090):
`tempSchedule[index].enabled = e.target.checked` throws a `TypeError` when
`tempSchedule[index]` is `undefined`, before anything is assigned. -/
def enabledCheckboxChange (s : AppState) (index : Int) (checked : Bool) : Outcome :=
  match arrayGet s.tempSchedule index with
  | none => { state := s, thrown := some .typeError }
  | some slot =>
    { state := updateSaveButtonStatus
        { s with
          tempSchedule := s.tempSchedule.set index.toNat { slot with enabled := checked },
          scheduleChanged := true },
      thrown := none }

/-- Click on the edit button of row `index`, which runs `editScheduleSlot(index)`
(lines 1200-1248), followed at once, with no other listener in between, by a
click on the save button of the edit row; `form` holds the values of the row's
controls at the time of that click.  Building the edit row reads `slot.day`,
which throws a `TypeError` when `tempSchedule[index]` is `undefined`.
Otherwise the index is a position of the draft, which is still the same at
the save click: the save listener replaces the slot there when day, start
time and end time are all non-empty and does nothing otherwise.  The save
listener taken alone, on whatever draft it finds at the time of the click, is
`saveSlotBtnClick`. -/
def editScheduleSlot (s : AppState) (index : Int) (form : RowForm) : Outcome :=
  match arrayGet s.tempSchedule index with
  | none => { state := s, thrown := some .typeError }
  | some _ =>
    if truthy form.day && truthy form.startTime && truthy form.endTime then
      { state := updateSaveButtonStatus
          (renderSchedule
            { s with
              tempSchedule := s.tempSchedule.set index.toNat form.toSlot,
              scheduleChanged := true }),
        thrown := none }
    else
      { state := s, thrown := none }

/-- Confirm callback of the "Clear Schedule" dialog (lines 1258-1264). -/
def clearScheduleConfirm (s : AppState) : AppState :=
  showToast
    (updateSaveButtonStatus
      (renderSchedule { s with tempSchedule := [], scheduleChanged := true }))
    "All schedule slots have been cleared" "info"

/-- Dialog "Clear Schedule" of the clear-all listener (lines 1251-1266). -/
def clearScheduleModal : Modal :=
  { title := "Clear Schedule",
    content := "Are you sure you want to clear all schedule slots? (Changes will not be saved until you click Save)",
    confirmText := "Clear All",
    cancelText := "Cancel",
    onConfirm := .clearSchedule,
    onCancel := .nothing }

/-- Click listener of `clear-all-btn` (lines 1250-1267): only asks for confirmation;
the call of `showModal` is its only statement. -/
def clearAllBtnClick (s : AppState) : AppState :=
  (showModal s clearScheduleModal).state

/-- Row appended by `add-slot-btn`: first option of each select, empty time inputs,
checked checkbox. -/
def emptyNewRow : RowForm :=
  { day := "Monday", startTime := "", mode := "Dimmed Warm", endTime := "", enabled := true }

/-- Click listener of `add-slot-btn` (lines 1143-1198): appends a blank
`.new-schedule-row` to the table body. -/
def addSlotBtnClick (s : AppState) : AppState :=
  { s with newScheduleRows := s.newScheduleRows ++ [emptyNewRow] }

/-- One control of a row together with the value the user gives it. -/
inductive FieldEdit where
  | day (v : String) : FieldEdit
  | startTime (v : String) : FieldEdit
  | mode (v : String) : FieldEdit
  | endTime (v : String) : FieldEdit
  | enabled (b : Bool) : FieldEdit
deriving DecidableEq, Repr

/-- Row after the browser has stored the new value of the edited control. -/
def RowForm.edit (r : RowForm) : FieldEdit → RowForm
  | .day v => { r with day := v }
  | .startTime v => { r with startTime := v }
  | .mode v => { r with mode := v }
  | .endTime v => { r with endTime := v }
  | .enabled b => { r with enabled := b }

/-- Change event on a control of the pending new row number `row` (listener of
`addChangeListener`, lines 1168-1189): the control already holds its new
value; the listener sets `scheduleChanged` and refreshes the save button (the
border colouring of the time inputs is not modelled).  There is no event for a
row that does not exist. -/
def newRowChange (s : AppState) (row : Nat) (e : FieldEdit) : AppState :=
  match s.newScheduleRows[row]? with
  | none => s
  | some r =>
    updateSaveButtonStatus
      { s with newScheduleRows := s.newScheduleRows.set row (r.edit e), scheduleChanged := true }

/-- Source function `saveScheduleWithFeedback()` with its timer callback
(lines 1306-1328), the specification's `commit()`.  The "Saving..." label and
the disabled state of the button are not modelled. -/
def saveScheduleWithFeedback (s : AppState) : AppState :=
  let schedule := jsonClone s.tempSchedule
  showToast
    (updateSaveButtonStatus
      (renderSchedule
        { s with
          schedule := schedule,
          localStorage := saveSchedule s.localStorage schedule,
          scheduleChanged := false }))
    "Schedule saved successfully!" "success"

/-- Body of `newScheduleRows.forEach` in the save listener (lines 1276-1289) for one
row, acting on `tempSchedule` and the local flag `invalidEntries`. -/
def saveRowStep (acc : List Slot × Bool) (row : RowForm) : List Slot × Bool :=
  if truthy row.day && truthy row.startTime && truthy row.endTime then
    (acc.1 ++ [row.toSlot], acc.2)
  else if truthy row.startTime || truthy row.endTime then
    (acc.1, true)
  else
    acc

/-- Loop `newScheduleRows.forEach(...)` of the save listener, started with
`invalidEntries = false`. -/
def saveRows (rows : List RowForm) (tempSchedule : List Slot) : List Slot × Bool :=
  rows.foldl saveRowStep (tempSchedule, false)

/-- Dialog "Incomplete Entries" of the save listener (lines 1293-1301); no `onCancel`
is passed, so cancelling runs the default empty callback. -/
def incompleteEntriesModal : Modal :=
  { title := "Incomplete Entries",
    content := "Some new schedule entries are incomplete and will not be saved. Would you like to continue?",
    confirmText := "Save Anyway",
    cancelText := "Go Back & Fix",
    onConfirm := .saveScheduleWithFeedback,
    onCancel := .nothing }

/-- Click listener of `save-schedule-btn` (lines 1268-1304): the rows are pushed
first; with `invalidEntries` the call of `showModal` ends the listener, whether
it throws or not, otherwise the draft is saved. -/
def saveScheduleBtnClick (s : AppState) : AppState :=
  let r := saveRows s.newScheduleRows s.tempSchedule
  let s1 := { s with tempSchedule := r.1 }
  if r.2 then (showModal s1 incompleteEntriesModal).state else saveScheduleWithFeedback s1

/-- Constant `weekdays` of the apply-to-weekdays listener. -/
def weekdays : List String := ["Monday", "Tuesday", "Wednesday", "Thursday", "Friday"]

/-- Inner loop `weekdays.forEach` for one source slot: a copy `{ ...slot, day }` for
every weekday other than the slot's own day. -/
def weekdayCopies (slot : Slot) : List Slot :=
  (weekdays.filter fun day => day != slot.day).map fun day => { slot with day := day }

/-- Outer loop `selectedSlots.forEach` pushing on `newSchedule`; `none` when some
`tempSchedule[index]` is `undefined` and `slot.day` throws. -/
def applyToSelected (tempSchedule : List Slot) : List Int → List Slot → Option (List Slot)
  | [], newSchedule => some newSchedule
  | index :: rest, newSchedule =>
    match arrayGet tempSchedule index with
    | none => none
    | some slot => applyToSelected tempSchedule rest (newSchedule ++ weekdayCopies slot)

/-- Click listener of `apply-weekdays-btn` with its timer callback (lines 1331-1384);
`selectedSlots` are the row indices of the checked checkboxes of the table.
A throw inside the loop ends the callback before `tempSchedule` is assigned.
The label and the disabled state of the button are not modelled. -/
def applyWeekdaysBtnClick (s : AppState) (selectedSlots : List Int) : Outcome :=
  if selectedSlots.length = 0 then
    { state := showToast s "Please select at least one schedule slot to apply to weekdays"
        "warning",
      thrown := none }
  else
    match applyToSelected s.tempSchedule selectedSlots s.tempSchedule with
    | none => { state := s, thrown := some .typeError }
    | some newSchedule =>
      { state := showToast
          (updateSaveButtonStatus
            (renderSchedule { s with tempSchedule := newSchedule, scheduleChanged := true }))
          "Applied selected schedules to all weekdays!" "success",
        thrown := none }

/-- Confirm callback "Discard Changes" of the unsaved-changes dialog
(lines 1024-1040), the specification's `discard()` followed by the navigation. -/
def discardChangesConfirm (s : AppState) (targetView : String) : AppState :=
  { s with
    tempSchedule := jsonClone s.schedule,
    scheduleChanged := false,
    views := activate targetView s.views,
    navButtons := activate targetView s.navButtons }

/-- Cancel callback "Stay & Save" of the unsaved-changes dialog (lines 1041-1053). -/
def stayOnScheduleCancel (s : AppState) : AppState :=
  { s with
    views := activate "schedule-view" s.views,
    navButtons := activate "schedule-view" s.navButtons }

/-- Running a callback that was handed to `showModal`. -/
def runModalAction (s : AppState) : ModalAction → AppState
  | .nothing => s
  | .saveScheduleWithFeedback => saveScheduleWithFeedback s
  | .clearSchedule => clearScheduleConfirm s
  | .discardChanges targetView => discardChangesConfirm s targetView
  | .stayOnSchedule => stayOnScheduleCancel s

/-- Click on the dialog's confirm button: `settings.onConfirm(); hideModal()`. -/
def modalConfirmClick (s : AppState) : AppState :=
  match s.modal with
  | none => s
  | some m => hideModal (runModalAction s m.onConfirm)

/-- Click on the dialog's cancel or close button: `settings.onCancel(); hideModal()`. -/
def modalCancelClick (s : AppState) : AppState :=
  match s.modal with
  | none => s
  | some m => hideModal (runModalAction s m.onCancel)

/-- Key listener `handleModalKeydown(e)` (lines 230-236), installed on the document
while a dialog is shown: Escape only hides the dialog, without running
`onCancel`; Enter clicks the confirm button. -/
def handleModalKeydown (s : AppState) (key : String) : AppState :=
  match s.modal with
  | none => s
  | some _ =>
    if key = "Escape" then hideModal s
    else if key = "Enter" then modalConfirmClick s
    else s

/-! ## Navigation -/

/-- Dialog "Unsaved Schedule Changes" of the navigation guard (lines 1017-1055). -/
def unsavedChangesModal (targetView : String) : Modal :=
  { title := "Unsaved Schedule Changes",
    content := "You have unsaved changes to your schedule. What would you like to do?",
    confirmText := "Discard Changes",
    cancelText := "Stay & Save",
    onConfirm := .discardChanges targetView,
    onCancel := .stayOnSchedule }

/-- View-switching click listener of every bottom-nav button (lines 344-356): the
view whose id is the button's `data-view` becomes the active one and the
clicked button the active button (buttons are told apart by `data-view`). -/
def viewSwitchClick (s : AppState) (target : String) : AppState :=
  { s with views := activate target s.views, navButtons := activate target s.navButtons }

/-- Guard click listener of every nav button other than the schedule one
(lines 1005-1061): with unsaved changes it shows the dialog, otherwise it does
nothing.  Its `preventDefault` and `stopPropagation` have no effect on the
listeners of the button itself, and a throw of `showModal` ends this listener
only. -/
def navGuardClick (s : AppState) (targetView : String) : AppState :=
  if s.scheduleChanged then (showModal s (unsavedChangesModal targetView)).state else s

/-- Source function `checkUnsavedChanges()` (lines 1117-1124); `confirmAnswer` is what
the user answers to the browser's `confirm` box, which is only asked when
`scheduleChanged` holds. -/
def checkUnsavedChanges (s : AppState) (confirmAnswer : Bool) : Bool :=
  if s.scheduleChanged then confirmAnswer else true

/-- A click on the bottom-nav button with `data-view = target`, all listeners in
dispatch order.  On a button other than the schedule one the capture-phase
listener (lines 1126-1141) runs first and, when `checkUnsavedChanges()` is
false, stops the propagation, so that the bubble listeners of the button do not
run; otherwise the view-switching listener (registered first) and then the
guard listener run.  On the schedule button the view-switching listener is
followed by the listener of lines 1105-1114.  The listeners of the home, rooms
and savings buttons that only render their view are not modelled. -/
def navButtonClick (s : AppState) (target : String) (confirmAnswer : Bool) : AppState :=
  if target = "schedule-view" then scheduleViewClick (viewSwitchClick s target)
  else if checkUnsavedChanges s confirmAnswer then navGuardClick (viewSwitchClick s target) target
  else s

/-- Whether `elems` has the element `target` marked active and no other one. -/
def onlyActive (target : String) (elems : List (String × Bool)) : Prop :=
  ∀ e ∈ elems, (e.2 = true ↔ e.1 = target)

instance (target : String) (elems : List (String × Bool)) : Decidable (onlyActive target elems) := by
  unfold onlyActive
  infer_instance

/-- Specification name `isDirty()`: the flag `scheduleChanged`. -/
def isDirty (s : AppState) : Bool := s.scheduleChanged

/-- The two slot edits behind the specification's `setSlotField`: a change of the
enabled checkbox of a display row, and a save of a row in edit mode. -/
inductive SlotEdit where
  | toggle (index : Int) (checked : Bool) : SlotEdit
  | saveRow (index : Int) (form : RowForm) : SlotEdit
deriving DecidableEq, Repr

/-- Running one slot edit; a listener that throws leaves its state behind. -/
def runSlotEdit (s : AppState) : SlotEdit → AppState
  | .toggle index checked => (enabledCheckboxChange s index checked).state
  | .saveRow index form => (editScheduleSlot s index form).state

/-- Running a sequence of slot edits, first to last. -/
def runSlotEdits (s : AppState) (edits : List SlotEdit) : AppState :=
  edits.foldl runSlotEdit s

/-- Whether a slot edit addresses an existing slot of the draft and, for a row save,
passes the guard `day && startTime && endTime`. -/
def SlotEdit.takesEffect (tempSchedule : List Slot) : SlotEdit → Bool
  | .toggle index _ => (arrayGet tempSchedule index).isSome
  | .saveRow index form =>
    (arrayGet tempSchedule index).isSome &&
      (truthy form.day && truthy form.startTime && truthy form.endTime)

/-- Whether a row passes the guard `day && startTime && endTime` of the save listener. -/
def RowForm.complete (r : RowForm) : Bool :=
  truthy r.day && truthy r.startTime && truthy r.endTime

/-- Whether the save loop flags a row: it is not complete, yet its start time or its
end time is filled in. -/
def RowForm.flagged (r : RowForm) : Bool :=
  !r.complete && (truthy r.startTime || truthy r.endTime)

/-- State at page load with an empty store: `schedule = getSchedule()` is `[]`, the
draft is its copy, the home view and its nav button are active.  The view ids
are those named by the help listener (lines 1627-1652). -/
def initialState : AppState :=
  { localStorage := fun _ => none,
    schedule := [],
    tempSchedule := [],
    scheduleChanged := false,
    newScheduleRows := [],
    saveBtnUnsaved := false,
    views := [("home-view", true), ("rooms-view", false), ("schedule-view", false),
      ("savings-view", false), ("room-control-view", false)],
    navButtons := [("home-view", true), ("rooms-view", false), ("schedule-view", false),
      ("savings-view", false)],
    modal := none,
    toasts := [],
    modalButtonsAttached := true }

/-- State with an empty draft and two pending new rows, a complete Monday row and a
Tuesday row without end time; the change events of the rows have set the dirty
flag. -/
def twoPendingRows : AppState :=
  { initialState with
    newScheduleRows :=
      [{ day := "Monday", startTime := "07:00", mode := "Dimmed Warm", endTime := "08:00",
         enabled := true },
       { day := "Tuesday", startTime := "09:00", mode := "Off", endTime := "",
         enabled := true }],
    scheduleChanged := true }

/-- State reached from a one-slot committed schedule by a click on the schedule
button, unchecking the slot's enabled checkbox, and a click on the home button
with the `confirm` question answered with OK. -/
def promptAfterToggle : AppState :=
  navButtonClick
    (enabledCheckboxChange
      (navButtonClick
        { initialState with
          schedule := [{ day := "Monday", startTime := "08:00", mode := "Off",
                         endTime := "09:00", enabled := true }] }
        "schedule-view" true)
      0 false).state
    "home-view" true

/-! ## Rooms and savings: data and store -/

/-- Room record `{ name, mode, brightness, temp, occupancy }`; brightness and colour
temperature are the integers that `parseInt` reads from the range controls. -/
structure Room where
  name : String
  mode : String
  brightness : Int
  temp : Int
  occupancy : Bool
deriving DecidableEq, Repr

/-- Savings record `{ ecoMode, weeklySavings, ecoTips }`. -/
structure SavingsData where
  ecoMode : Bool
  weeklySavings : List ℚ
  ecoTips : List String
deriving DecidableEq

/-- Encoding `JSON.stringify(room)`. -/
def Room.toJson (r : Room) : Json :=
  .obj [("name", .str r.name), ("mode", .str r.mode), ("brightness", .num r.brightness),
    ("temp", .num r.temp), ("occupancy", .bool r.occupancy)]

/-- Reading a parsed object as a room: the five members by name, the two numbers
being integers. -/
def Room.ofJson? : Json → Option Room
  | .obj kvs =>
    match kvs.lookup "name", kvs.lookup "mode", kvs.lookup "brightness", kvs.lookup "temp",
      kvs.lookup "occupancy" with
    | some (.str n), some (.str m), some (.num b), some (.num t), some (.bool o) =>
      if b.den = 1 ∧ t.den = 1 then
        some { name := n, mode := m, brightness := b.num, temp := t.num, occupancy := o }
      else none
    | _, _, _, _, _ => none
  | _ => none

/-- Reading the items of a parsed array as rooms, in order. -/
def parseRoomItems : List Json → Option (List Room)
  | [] => some []
  | item :: items =>
    match Room.ofJson? item, parseRoomItems items with
    | some room, some rooms => some (room :: rooms)
    | _, _ => none

/-- Encoding `JSON.stringify(rooms)`. -/
def stringifyRooms (rooms : List Room) : Json :=
  .arr (rooms.map Room.toJson)

/-- Decoding `JSON.parse(text)` read as an array of rooms. -/
def parseRooms : Json → Option (List Room)
  | .arr items => parseRoomItems items
  | _ => none

/-- Default room list of `getRooms()` (lines 427-440). -/
def defaultRooms : List Room :=
  [{ name := "Living Room", mode := "Dimmed Warm", brightness := 70, temp := 3000,
     occupancy := false },
   { name := "Bedroom", mode := "Off", brightness := 0, temp := 2700, occupancy := false }]

/-- Source function `getRooms()`: `JSON.parse(localStorage.getItem("rooms")) || [...]`;
`none` when the stored document is not a room list. -/
def getRooms (ls : LocalStorage) : Option (List Room) :=
  match ls.getItem "rooms" with
  | none => some defaultRooms
  | some doc => if doc.truthy then parseRooms doc else some defaultRooms

/-- Source function `saveRooms(rooms)`. -/
def saveRooms (ls : LocalStorage) (rooms : List Room) : LocalStorage :=
  ls.setItem "rooms" (stringifyRooms rooms)

/-- Reading a parsed value as a number. -/
def Json.number? : Json → Option ℚ
  | .num n => some n
  | _ => none

/-- Reading a parsed value as a string. -/
def Json.string? : Json → Option String
  | .str v => some v
  | _ => none

/-- Reading the items of a parsed array as numbers. -/
def parseNumbers : List Json → Option (List ℚ)
  | [] => some []
  | item :: items =>
    match item.number?, parseNumbers items with
    | some n, some ns => some (n :: ns)
    | _, _ => none

/-- Reading the items of a parsed array as strings. -/
def parseStrings : List Json → Option (List String)
  | [] => some []
  | item :: items =>
    match item.string?, parseStrings items with
    | some v, some vs => some (v :: vs)
    | _, _ => none

/-- Encoding `JSON.stringify(data)` of a savings record. -/
def SavingsData.toJson (d : SavingsData) : Json :=
  .obj [("ecoMode", .bool d.ecoMode), ("weeklySavings", .arr (d.weeklySavings.map Json.num)),
    ("ecoTips", .arr (d.ecoTips.map Json.str))]

/-- Decoding `JSON.parse(text)` read as a savings record. -/
def SavingsData.ofJson? : Json → Option SavingsData
  | .obj kvs =>
    match kvs.lookup "ecoMode", kvs.lookup "weeklySavings", kvs.lookup "ecoTips" with
    | some (.bool e), some (.arr ws), some (.arr ts) =>
      match parseNumbers ws, parseStrings ts with
      | some ns, some vs => some { ecoMode := e, weeklySavings := ns, ecoTips := vs }
      | _, _ => none
    | _, _, _ => none
  | _ => none

/-- Default savings record of `getSavingsData()` (lines 452-462). -/
def defaultSavingsData : SavingsData :=
  { ecoMode := false,
    weeklySavings := [2.3, 1.8, 2.7, 2.0, 3.1, 2.5, 1.9],
    ecoTips :=
      ["Turn off lights when leaving a room", "Lower brightness levels when possible",
        "Use warmer colour temperatures at night",
        "Schedule automatic dimming during peak hours",
        "Take advantage of natural light during daytime"] }

/-- Source function `getSavingsData()`; `none` when the stored document is not a
savings record. -/
def getSavingsData (ls : LocalStorage) : Option SavingsData :=
  match ls.getItem "savings" with
  | none => some defaultSavingsData
  | some doc => if doc.truthy then SavingsData.ofJson? doc else some defaultSavingsData

/-- Source function `saveSavingsData(data)`. -/
def saveSavingsData (ls : LocalStorage) (data : SavingsData) : LocalStorage :=
  ls.setItem "savings" data.toJson

/-! ## Room names and keys -/

/-- Characters matched by `\s` in a regular expression, which are also the ones
removed by `String.prototype.trim`. -/
def isJsWhitespace (c : Char) : Bool :=
  c.toNat ∈ [9, 10, 11, 12, 13, 32, 0xa0, 0x1680, 0x2028, 0x2029, 0x202f, 0x205f, 0x3000,
      0xfeff] ||
    (0x2000 ≤ c.toNat && c.toNat ≤ 0x200a)

/-- String method `name.trim()`. -/
def trim (v : String) : String :=
  String.mk ((v.data.dropWhile isJsWhitespace).reverse.dropWhile isJsWhitespace).reverse

/-- Replacement of every maximal run of whitespace by one hyphen, character by
character; `inRun` tells that the previous character was whitespace. -/
def hyphenateRuns (inRun : Bool) : List Char → List Char
  | [] => []
  | c :: cs =>
    if isJsWhitespace c then
      if inRun then hyphenateRuns true cs else (Char.ofNat 45) :: hyphenateRuns true cs
    else c :: hyphenateRuns false cs

/-- String method `v.replace(/\s+/g, "-")`. -/
def replaceWhitespace (v : String) : String :=
  String.mk (hyphenateRuns false v.data)

/-- Lower-casing of the ASCII letters, all other characters being kept. -/
def asciiToLowerCase (v : String) : String :=
  String.mk (v.data.map Char.toLower)

/-- Room key `name.toLowerCase().replace(/\s+/g, "-")`. -/
def slugify (toLowerCase : String → String) (name : String) : String :=
  replaceWhitespace (toLowerCase name)

/-! ## Room handlers -/

/-- Whole page: the schedule state, store and presentation of `AppState` together
with the module-level variables `rooms`, `currentRoomKey` and `tempRoomState`
(`null` being `none`). -/
structure Page where
  app : AppState
  rooms : List Room
  currentRoomKey : Option String
  tempRoomState : Option Room

/-- Result of running a room listener: the page afterwards and the exception, if
any, that ended it. -/
structure PageOutcome where
  page : Page
  thrown : Option JsError

/-- Values read from the controls of the room-control view: the mode select, the
two range inputs through `parseInt(value, 10)`, and the occupancy checkbox. -/
structure Controls where
  mode : String
  brightness : Int
  temp : Int
  occupancy : Bool
deriving DecidableEq, Repr

/-- Source function `switchView(id)` (lines 1390-1410): the view and the nav button
of `id` become the active ones.  The write-only variable `previousView` is not
modelled. -/
def switchView (s : AppState) (id : String) : AppState :=
  { s with views := activate id s.views, navButtons := activate id s.navButtons }

/-- Click listener of the back buttons outside the room-control view
(lines 404-419) on the variable `navigationHistory`: the state afterwards and
the history afterwards. -/
def backBtnClick (s : AppState) (navigationHistory : List String) : AppState × List String :=
  if navigationHistory.length > 1 then
    match navigationHistory.dropLast.getLast? with
    | some prevView => (switchView s prevView, navigationHistory.dropLast)
    | none => (s, navigationHistory.dropLast)
  else (switchView s "home-view", navigationHistory)

/-- Index search `xs.findIndex(p)`: `none` is the result `-1`. -/
def findIndex {α : Type} (p : α → Bool) : List α → Option Nat
  | [] => none
  | x :: xs => if p x then some 0 else (findIndex p xs).map (· + 1)

/-- Test `slug(r.name) === currentRoomKey` of the room lookups; no string equals
`null`. -/
def hasKey (toLowerCase : String → String) (key : Option String) (r : Room) : Bool :=
  some (slugify toLowerCase r.name) == key

/-- Eco caps `{ ...room, brightness: Math.min(room.brightness, 70),
temp: Math.min(room.temp, 3500) }`, the same expression in both eco listeners
(lines 494-498 and 619-623). -/
def ecoCap (room : Room) : Room :=
  { room with brightness := min room.brightness 70, temp := min room.temp 3500 }

/-- Change listener of the eco toggle of the home view (lines 593-632): the stored
savings record gets the new `ecoMode` (a stored document that is not a savings
record is left as it is); switching on caps every room and stores the rooms.
The colouring of the slider and the re-rendering of the cards are not
modelled. -/
def ecoToggleChange (p : Page) (isEcoOn : Bool) : Page :=
  let ls1 :=
    match getSavingsData p.app.localStorage with
    | some data => saveSavingsData p.app.localStorage { data with ecoMode := isEcoOn }
    | none => p.app.localStorage
  if isEcoOn then
    let rooms := p.rooms.map ecoCap
    { p with
      rooms := rooms,
      app := showToast { p.app with localStorage := saveRooms ls1 rooms }
        "Eco Mode activated" "success" }
  else
    { p with app := showToast { p.app with localStorage := ls1 } "Eco Mode deactivated" "info" }

/-- Room pushed by the add-room callback. -/
def newRoom (name : String) : Room :=
  { name := name, mode := "Off", brightness := 0, temp := 2700, occupancy := false }

/-- Confirm callback of the "Add New Room" dialog (lines 717-748); `input` is the
value of the name field.  The dialog shown again 500 ms after a rejected name
is not modelled. -/
def addRoomConfirm (toLowerCase : String → String) (p : Page) (input : String) : Page :=
  let name := trim input
  if !truthy name then
    { p with app := showToast p.app "Please enter a room name" "error" }
  else if p.rooms.any (fun r => toLowerCase r.name == toLowerCase name) then
    { p with app := showToast p.app "A room with this name already exists" "error" }
  else
    let rooms := p.rooms ++ [newRoom name]
    { p with
      rooms := rooms,
      app := showToast { p.app with localStorage := saveRooms p.app.localStorage rooms }
        ("Room \"" ++ name ++ "\" has been added") "success" }

/-- Source function `showRoomControl(key)` (lines 1411-1457): the key and a copy of
the first room with that key are kept, the controls are filled from the room
and the room-control view is shown.  When no room has the key, reading
`room.name` throws before the view is switched; the state left behind, with an
empty object as `tempRoomState`, is not represented. -/
def showRoomControl (toLowerCase : String → String) (p : Page) (key : String) :
    Except JsError Page :=
  match p.rooms.find? (hasKey toLowerCase (some key)) with
  | none => .error .typeError
  | some room =>
    .ok { p with
      currentRoomKey := some key,
      tempRoomState := some room,
      app := switchView p.app "room-control-view" }

/-- Confirm callback of the "Remove Room" dialog (lines 1442-1451); `roomName` is the
name found by the click listener of the remove button. -/
def removeRoomConfirm (toLowerCase : String → String) (p : Page) (roomName : Option String) :
    Page :=
  let rooms := p.rooms.filter fun r => !hasKey toLowerCase p.currentRoomKey r
  { p with
    rooms := rooms,
    app := showToast
      (switchView { p.app with localStorage := saveRooms p.app.localStorage rooms } "home-view")
      (roomName.getD "Room" ++ " was removed") "success" }

/-- Source function `updateTempRoomStateFromControls()` (lines 1459-1471) on
`tempRoomState`; assigning to a member of `null` throws. -/
def updateTempRoomStateFromControls (tempRoomState : Option Room) (c : Controls) :
    Option Room :=
  tempRoomState.map fun t =>
    { t with mode := c.mode, brightness := c.brightness, temp := c.temp,
             occupancy := c.occupancy }

/-- Click listener of `apply-btn` (lines 1472-1483): the room with the current key is
replaced in memory, nothing is stored. -/
def applyBtnClick (toLowerCase : String → String) (p : Page) (c : Controls) : PageOutcome :=
  match updateTempRoomStateFromControls p.tempRoomState c with
  | none => { page := p, thrown := some .typeError }
  | some t =>
    let rooms :=
      match findIndex (hasKey toLowerCase p.currentRoomKey) p.rooms with
      | some idx => p.rooms.set idx t
      | none => p.rooms
    { page := { p with tempRoomState := some t, rooms := rooms,
                       app := switchView p.app "home-view" },
      thrown := none }

/-- Click listener of `save-btn` with its timer callback (lines 1484-1515): the room
with the current key is replaced and the room list stored. -/
def saveBtnClick (toLowerCase : String → String) (p : Page) (c : Controls) : PageOutcome :=
  match updateTempRoomStateFromControls p.tempRoomState c with
  | none => { page := p, thrown := some .typeError }
  | some t =>
    match findIndex (hasKey toLowerCase p.currentRoomKey) p.rooms with
    | some idx =>
      let roomName := (p.rooms[idx]?.map Room.name).getD ""
      let rooms := p.rooms.set idx t
      { page :=
          { p with
            tempRoomState := some t,
            rooms := rooms,
            app := switchView
              (showToast { p.app with localStorage := saveRooms p.app.localStorage rooms }
                ("Settings for " ++ roomName ++ " saved successfully") "success")
              "home-view" },
        thrown := none }
    | none =>
      { page := { p with tempRoomState := some t, app := switchView p.app "home-view" },
        thrown := none }

/-- Page at load with an empty store: the default rooms and no room selected. -/
def initialPage : Page :=
  { app := initialState, rooms := defaultRooms, currentRoomKey := none, tempRoomState := none }

/-! ## View on screen -/

/-- Whether the schedule view carries the class `active`, that is, is the view on
screen. -/
def scheduleVisible (s : AppState) : Bool :=
  s.views.contains ("schedule-view", true)

/-- State with the schedule view on screen, a one-slot committed schedule, the same
draft and the dirty flag set. -/
def dirtyOnScheduleView : AppState :=
  (enabledCheckboxChange
    (navButtonClick
      { initialState with
        schedule := [{ day := "Monday", startTime := "08:00", mode := "Off",
                       endTime := "09:00", enabled := true }] }
      "schedule-view" true)
    0 false).state

/-! ## Edit rows that outlive their slot, and dialogs after the first -/

/-- The draft as the save button of an edit row leaves it: a position of the array
holds a slot or is a hole (`none`). -/
structure SparseDraft where
  tempSchedule : List (Option Slot)
  scheduleChanged : Bool
deriving DecidableEq, Repr

/-- JavaScript assignment `xs[index] = v` on an array: a position of the array is
overwritten; an index at or past the length extends the array to
`index + 1` with holes in between; a negative index names a property that is
not a position, so positions and length stay as they are. -/
def arrayAssign {α : Type} (xs : List (Option α)) (index : Int) (v : α) : List (Option α) :=
  if index < 0 then xs
  else if index.toNat < xs.length then xs.set index.toNat (some v)
  else xs ++ List.replicate (index.toNat - xs.length) none ++ [some v]

/-- Click listener of the save button of an edit row (lines 1234-1247), row number
`index`, on the state it finds at the time of the click.  It reads the five
controls of its row and never reads `tempSchedule[index]`: with day, start time
and end time non-empty it assigns `tempSchedule[index]` and sets
`scheduleChanged`, otherwise it does nothing.  It does not throw:
`renderSchedule` walks the draft with `forEach`, which skips holes. -/
def saveSlotBtnClick (s : AppState) (index : Int) (form : RowForm) : SparseDraft :=
  if truthy form.day && truthy form.startTime && truthy form.endTime then
    { tempSchedule := arrayAssign (s.tempSchedule.map some) index form.toSlot,
      scheduleChanged := true }
  else
    { tempSchedule := s.tempSchedule.map some, scheduleChanged := s.scheduleChanged }

/-- Encoding `JSON.stringify(tempSchedule)` of a draft with holes: a hole is written
as `null`. -/
def stringifySparse (xs : List (Option Slot)) : Json :=
  .arr (xs.map fun entry =>
    match entry with
    | some slot => slot.toJson
    | none => .null)

/-- Commit of a draft with holes, the first two statements of the timer callback
(lines 1315-1316): `schedule = JSON.parse(JSON.stringify(tempSchedule))` has
`null` where the draft has a hole, and `saveSchedule(schedule)` stores that
array, whose text is again `JSON.stringify(tempSchedule)`. -/
def commitSparse (ls : LocalStorage) (d : SparseDraft) : LocalStorage :=
  ls.setItem "schedule" (stringifySparse d.tempSchedule)

/-- State reached from a one-slot committed schedule by a click on the schedule
button and apply-to-weekdays on the slot: the draft has five slots and the
table five rows. -/
def appliedToWeekdays : AppState :=
  (applyWeekdaysBtnClick
    (navButtonClick
      { initialState with
        schedule := [{ day := "Monday", startTime := "08:00", mode := "Off",
                       endTime := "09:00", enabled := true }] }
      "schedule-view" true)
    [0]).state

/-- State reached from `appliedToWeekdays` by a click on the edit button of row 4,
which changes no variable, a click on the home button with the `confirm`
question answered with OK, and "Discard Changes".  The discard callback
(lines 1024-1040) does not call `renderSchedule`, so the table keeps its five
rows, row 4 in edit mode, over a draft of one slot. -/
def staleEditRow : AppState :=
  modalConfirmClick (navButtonClick appliedToWeekdays "home-view" true)

/-- State reached from the page at load by a click on the schedule button, a new row
filled in with 07:00 and 08:00, a second new row with only the start time
09:00, a click on the home button with the `confirm` question answered with
OK, and "Discard Changes".  The discard callback does not call
`renderSchedule`, so both rows are still in the table. -/
def discardedWithPendingRows : AppState :=
  modalConfirmClick
    (navButtonClick
      (newRowChange
        (addSlotBtnClick
          (newRowChange
            (newRowChange
              (addSlotBtnClick (navButtonClick initialState "schedule-view" true))
              0 (.startTime "07:00"))
            0 (.endTime "08:00")))
        1 (.startTime "09:00"))
      "home-view" true)

/-- State reached from the page at load by a click on the schedule button, a click
on the clear-all button and "Cancel": a dialog has been shown and closed. -/
def afterCancelledClearAll : AppState :=
  modalCancelClick (clearAllBtnClick (navButtonClick initialState "schedule-view" true))

/-- The candidate of the specification's example, day "", 09:00, 17:00, Off, enabled,
typed into a new row of state `s`: a click on the add-slot button and a change
event on each of the five controls. -/
def typeExampleRow (s : AppState) : AppState :=
  newRowChange
    (newRowChange
      (newRowChange
        (newRowChange (newRowChange (addSlotBtnClick s) 0 (.day "")) 0 (.startTime "09:00"))
        0 (.endTime "17:00"))
      0 (.mode "Off"))
    0 (.enabled true)

/-! ## JSON round trip -/

theorem Slot.ofJson?_toJson (s : Slot) : Slot.ofJson? s.toJson = some s := by
  cases s
  simp [Slot.ofJson?, Slot.toJson, List.lookup]

theorem parseSlots_map_toJson (xs : List Slot) :
    parseSlots (xs.map Slot.toJson) = some xs := by
  induction xs with
  | nil => rfl
  | cons x xs ih => simp [parseSlots, Slot.ofJson?_toJson, ih]

theorem parseSchedule_stringifySchedule (xs : List Slot) :
    parseSchedule (stringifySchedule xs) = some xs := by
  simp [parseSchedule, stringifySchedule, parseSlots_map_toJson]

@[simp] theorem jsonClone_eq (xs : List Slot) : jsonClone xs = xs := by
  simp [jsonClone, parseSchedule_stringifySchedule]

theorem getSchedule_saveSchedule (ls : LocalStorage) (xs : List Slot) :
    getSchedule (saveSchedule ls xs) = some xs := by
  have h := parseSchedule_stringifySchedule xs
  simp [getSchedule, saveSchedule, LocalStorage.getItem, LocalStorage.setItem, h,
    show (stringifySchedule xs).truthy = true from rfl]

/-! ## What `showModal` leaves alone -/

/-- Whether it throws or not, `showModal` leaves `localStorage` as it was. -/
@[simp]
theorem showModal_localStorage (s : AppState) (m : Modal) :
    (showModal s m).state.localStorage = s.localStorage := by
  unfold showModal; split <;> rfl

/-- Whether it throws or not, `showModal` leaves `schedule` as it was. -/
@[simp]
theorem showModal_schedule (s : AppState) (m : Modal) :
    (showModal s m).state.schedule = s.schedule := by
  unfold showModal; split <;> rfl

/-- Whether it throws or not, `showModal` leaves `tempSchedule` as it was. -/
@[simp]
theorem showModal_tempSchedule (s : AppState) (m : Modal) :
    (showModal s m).state.tempSchedule = s.tempSchedule := by
  unfold showModal; split <;> rfl

/-- Whether it throws or not, `showModal` leaves `scheduleChanged` as it was. -/
@[simp]
theorem showModal_scheduleChanged (s : AppState) (m : Modal) :
    (showModal s m).state.scheduleChanged = s.scheduleChanged := by
  unfold showModal; split <;> rfl

/-- Whether it throws or not, `showModal` leaves `newScheduleRows` as it was. -/
@[simp]
theorem showModal_newScheduleRows (s : AppState) (m : Modal) :
    (showModal s m).state.newScheduleRows = s.newScheduleRows := by
  unfold showModal; split <;> rfl

/-- Whether it throws or not, `showModal` leaves `saveBtnUnsaved` as it was. -/
@[simp]
theorem showModal_saveBtnUnsaved (s : AppState) (m : Modal) :
    (showModal s m).state.saveBtnUnsaved = s.saveBtnUnsaved := by
  unfold showModal; split <;> rfl

/-- Whether it throws or not, `showModal` leaves `views` as it was. -/
@[simp]
theorem showModal_views (s : AppState) (m : Modal) :
    (showModal s m).state.views = s.views := by
  unfold showModal; split <;> rfl

/-- Whether it throws or not, `showModal` leaves `navButtons` as it was. -/
@[simp]
theorem showModal_navButtons (s : AppState) (m : Modal) :
    (showModal s m).state.navButtons = s.navButtons := by
  unfold showModal; split <;> rfl

/-- Whether it throws or not, `showModal` leaves `toasts` as it was. -/
@[simp]
theorem showModal_toasts (s : AppState) (m : Modal) :
    (showModal s m).state.toasts = s.toasts := by
  unfold showModal; split <;> rfl

/-- On a page that has shown no dialog yet, `showModal` shows the dialog. -/
theorem showModal_modal_of_attached (s : AppState) (m : Modal)
    (h : s.modalButtonsAttached = true) : (showModal s m).state.modal = some m := by
  simp [showModal, h]

/-! ## Commit and re-entry -/

/-- C1. Round trip: for every state, whose draft is d, running the commit
(`saveScheduleWithFeedback`) and then the schedule-view click (`beginEditing`)
gives a draft equal to d, a committed schedule equal to d and a clear dirty
flag. -/
theorem commit_then_beginEditing_roundtrip (s : AppState) :
    (scheduleViewClick (saveScheduleWithFeedback s)).tempSchedule = s.tempSchedule ∧
    (scheduleViewClick (saveScheduleWithFeedback s)).schedule = s.tempSchedule ∧
    isDirty (scheduleViewClick (saveScheduleWithFeedback s)) = false := by
  simp [scheduleViewClick, saveScheduleWithFeedback, updateSaveButtonStatus, renderSchedule,
    showToast, isDirty]

/-- C2. Frame of the draft operations: the enabled toggle, the save of an edited
row, clear-all (the click and the confirmation), apply-to-weekdays, adding a
new row and changing one of its fields, the schedule-view click and the
discard callback all leave the committed `schedule` and the whole
`localStorage`, hence the persisted "schedule" record, as they were. -/
theorem draft_operations_preserve_committed (s : AppState) (index : Int) (checked : Bool)
    (form : RowForm) (selectedSlots : List Int) (row : Nat) (e : FieldEdit)
    (targetView : String) :
    ((enabledCheckboxChange s index checked).state.schedule = s.schedule ∧
      (enabledCheckboxChange s index checked).state.localStorage = s.localStorage) ∧
    ((editScheduleSlot s index form).state.schedule = s.schedule ∧
      (editScheduleSlot s index form).state.localStorage = s.localStorage) ∧
    ((clearAllBtnClick s).schedule = s.schedule ∧
      (clearAllBtnClick s).localStorage = s.localStorage) ∧
    ((clearScheduleConfirm s).schedule = s.schedule ∧
      (clearScheduleConfirm s).localStorage = s.localStorage) ∧
    ((applyWeekdaysBtnClick s selectedSlots).state.schedule = s.schedule ∧
      (applyWeekdaysBtnClick s selectedSlots).state.localStorage = s.localStorage) ∧
    ((addSlotBtnClick s).schedule = s.schedule ∧
      (addSlotBtnClick s).localStorage = s.localStorage) ∧
    ((newRowChange s row e).schedule = s.schedule ∧
      (newRowChange s row e).localStorage = s.localStorage) ∧
    ((scheduleViewClick s).schedule = s.schedule ∧
      (scheduleViewClick s).localStorage = s.localStorage) ∧
    ((discardChangesConfirm s targetView).schedule = s.schedule ∧
      (discardChangesConfirm s targetView).localStorage = s.localStorage) := by
  refine ⟨?_, ?_, ?_, ?_, ?_, ?_, ?_, ?_, ?_⟩
  · unfold enabledCheckboxChange
    cases arrayGet s.tempSchedule index <;> simp [updateSaveButtonStatus]
  · unfold editScheduleSlot
    cases arrayGet s.tempSchedule index
    · simp
    · by_cases h : (truthy form.day && truthy form.startTime && truthy form.endTime) = true
      · simp [h, updateSaveButtonStatus, renderSchedule]
      · simp [h]
  · simp [clearAllBtnClick]
  · simp [clearScheduleConfirm, showToast, updateSaveButtonStatus, renderSchedule]
  · unfold applyWeekdaysBtnClick
    by_cases h : selectedSlots.length = 0
    · simp [h, showToast]
    · simp only [h, if_false]
      cases applyToSelected s.tempSchedule selectedSlots s.tempSchedule <;>
        simp [showToast, updateSaveButtonStatus, renderSchedule]
  · simp [addSlotBtnClick]
  · unfold newRowChange
    cases s.newScheduleRows[row]? <;> simp [updateSaveButtonStatus]
  · simp [scheduleViewClick, updateSaveButtonStatus, renderSchedule]
  · simp [discardChangesConfirm]

/-- C3. Postcondition of the schedule-view click (`beginEditing`): whatever the
draft and the dirty flag were, afterwards the draft equals the committed
schedule, the dirty flag is clear and the committed schedule is unchanged. -/
theorem beginEditing_postcondition (s : AppState) :
    (scheduleViewClick s).tempSchedule = s.schedule ∧
    isDirty (scheduleViewClick s) = false ∧
    (scheduleViewClick s).schedule = s.schedule := by
  simp [scheduleViewClick, updateSaveButtonStatus, renderSchedule, isDirty]

/-- C4. Postcondition of the commit (`saveScheduleWithFeedback`): for a draft d, the
committed schedule is d, the document stored under "schedule" is the encoding
of d and reads back as d, both through `JSON.parse` and through
`getSchedule`, the dirty flag is clear and the draft is still d. -/
theorem commit_postcondition (s : AppState) :
    (saveScheduleWithFeedback s).schedule = s.tempSchedule ∧
    (saveScheduleWithFeedback s).localStorage.getItem "schedule" =
      some (stringifySchedule s.tempSchedule) ∧
    ((saveScheduleWithFeedback s).localStorage.getItem "schedule").bind parseSchedule =
      some s.tempSchedule ∧
    getSchedule (saveScheduleWithFeedback s).localStorage = some s.tempSchedule ∧
    isDirty (saveScheduleWithFeedback s) = false ∧
    (saveScheduleWithFeedback s).tempSchedule = s.tempSchedule := by
  have h := getSchedule_saveSchedule s.localStorage s.tempSchedule
  simp only [saveSchedule] at h
  simp [saveScheduleWithFeedback, updateSaveButtonStatus, renderSchedule, showToast, isDirty,
    h, saveSchedule, parseSchedule_stringifySchedule,
    show (s.localStorage.setItem "schedule" (stringifySchedule s.tempSchedule)).getItem
      "schedule" = some (stringifySchedule s.tempSchedule) from by
        simp [LocalStorage.getItem, LocalStorage.setItem]]

/-- C5. Scenario: from an empty committed schedule, the schedule-view click, a
new row filled in as Monday 07:00-08:00, Dimmed Warm, enabled, and a click on
save give a committed schedule of length 1 whose only slot has exactly those
five values, stored as such, and a clear dirty flag. -/
theorem add_monday_slot_scenario (s : AppState) (h : s.schedule = []) :
    let s1 := addSlotBtnClick (scheduleViewClick s)
    let s2 := newRowChange s1 0 (.day "Monday")
    let s3 := newRowChange s2 0 (.startTime "07:00")
    let s4 := newRowChange s3 0 (.endTime "08:00")
    let s5 := newRowChange s4 0 (.mode "Dimmed Warm")
    let s6 := newRowChange s5 0 (.enabled true)
    (saveScheduleBtnClick s6).schedule =
      [{ day := "Monday", startTime := "07:00", mode := "Dimmed Warm", endTime := "08:00",
         enabled := true }] ∧
    (saveScheduleBtnClick s6).schedule.length = 1 ∧
    getSchedule (saveScheduleBtnClick s6).localStorage =
      some [{ day := "Monday", startTime := "07:00", mode := "Dimmed Warm", endTime := "08:00",
              enabled := true }] ∧
    isDirty (saveScheduleBtnClick s6) = false := by
  have hs := getSchedule_saveSchedule s.localStorage
    [{ day := "Monday", startTime := "07:00", mode := "Dimmed Warm", endTime := "08:00",
       enabled := true }]
  simp only [saveSchedule] at hs
  simp [scheduleViewClick, addSlotBtnClick, newRowChange, saveScheduleBtnClick,
    saveScheduleWithFeedback, updateSaveButtonStatus, renderSchedule, showToast, isDirty,
    saveRows, saveRowStep, truthy, emptyNewRow, RowForm.edit, RowForm.toSlot, h, saveSchedule,
    hs]

/-- Witness of C5 at the page-load state with an empty store. -/
theorem add_monday_slot_scenario_witness :
    initialState.schedule = [] ∧
    (saveScheduleBtnClick
      (newRowChange (newRowChange (newRowChange (newRowChange (newRowChange
        (addSlotBtnClick (scheduleViewClick initialState))
        0 (.day "Monday")) 0 (.startTime "07:00")) 0 (.endTime "08:00"))
        0 (.mode "Dimmed Warm")) 0 (.enabled true))).schedule.length = 1 :=
  ⟨rfl, (add_monday_slot_scenario initialState rfl).2.1⟩

/-! ## Slot edits and the dirty flag -/

theorem arrayGet_eq_none_iff {α : Type} (xs : List α) (index : Int) :
    arrayGet xs index = none ↔ index < 0 ∨ (xs.length : Int) ≤ index := by
  unfold arrayGet
  by_cases h : 0 ≤ index
  · simp only [h, if_true, List.getElem?_eq_none_iff]
    omega
  · simp only [h, if_false, true_iff]
    omega

theorem runSlotEdit_of_not_takesEffect (t : AppState) (c : SlotEdit)
    (h : c.takesEffect t.tempSchedule = false) : runSlotEdit t c = t := by
  cases c with
  | toggle index checked =>
    simp only [SlotEdit.takesEffect] at h
    simp only [runSlotEdit, enabledCheckboxChange]
    cases hg : arrayGet t.tempSchedule index with
    | none => rfl
    | some slot => simp [hg] at h
  | saveRow index form =>
    simp only [SlotEdit.takesEffect] at h
    simp only [runSlotEdit, editScheduleSlot]
    cases hg : arrayGet t.tempSchedule index with
    | none => rfl
    | some slot =>
      simp only [hg, Option.isSome_some, Bool.true_and] at h
      simp [h]

theorem runSlotEdit_of_takesEffect (t : AppState) (c : SlotEdit)
    (h : c.takesEffect t.tempSchedule = true) : (runSlotEdit t c).scheduleChanged = true := by
  cases c with
  | toggle index checked =>
    simp only [SlotEdit.takesEffect] at h
    simp only [runSlotEdit, enabledCheckboxChange]
    cases hg : arrayGet t.tempSchedule index with
    | none => simp [hg] at h
    | some slot => simp [updateSaveButtonStatus]
  | saveRow index form =>
    simp only [SlotEdit.takesEffect] at h
    simp only [runSlotEdit, editScheduleSlot]
    cases hg : arrayGet t.tempSchedule index with
    | none => simp [hg] at h
    | some slot =>
      simp only [hg, Option.isSome_some, Bool.true_and] at h
      simp [h, updateSaveButtonStatus, renderSchedule]

theorem runSlotEdit_keeps_dirty (t : AppState) (c : SlotEdit)
    (h : t.scheduleChanged = true) : (runSlotEdit t c).scheduleChanged = true := by
  cases hc : c.takesEffect t.tempSchedule with
  | true => exact runSlotEdit_of_takesEffect t c hc
  | false => rw [runSlotEdit_of_not_takesEffect t c hc]; exact h

theorem runSlotEdits_keeps_dirty (cs : List SlotEdit) (t : AppState)
    (h : t.scheduleChanged = true) : (runSlotEdits t cs).scheduleChanged = true := by
  induction cs generalizing t with
  | nil => exact h
  | cons c cs ih => exact ih (runSlotEdit t c) (runSlotEdit_keeps_dirty t c h)

/-- C6, as stated, fails: after the schedule-view click on a one-slot schedule, the
save of row 0 in edit mode with an emptied start time is a slot edit after
which `isDirty()` is still false. -/
theorem slot_edit_without_effect_not_dirty :
    isDirty (runSlotEdits
      (scheduleViewClick { initialState with
        schedule := [{ day := "Monday", startTime := "08:00", mode := "Off",
                       endTime := "09:00", enabled := true }] })
      [.saveRow 0 { day := "Monday", startTime := "", mode := "Off", endTime := "09:00",
                    enabled := true }]) = false := by
  decide

/-- C6, amended. After the schedule-view click, for every non-empty sequence of slot
edits whose first edit takes effect (it addresses an existing slot and, for a
row save, has non-empty day, start time and end time), `isDirty()` is true
after the first edit and after every later one, whatever those are; a slot
edit that does not take effect leaves the whole state, the dirty flag
included, as it was. -/
theorem slot_edits_set_dirty (s : AppState) (c : SlotEdit) (cs : List SlotEdit)
    (h : c.takesEffect (scheduleViewClick s).tempSchedule = true) :
    isDirty (runSlotEdits (scheduleViewClick s) [c]) = true ∧
    (∀ k : Nat, isDirty (runSlotEdits (scheduleViewClick s) (c :: cs.take k)) = true) ∧
    (∀ (t : AppState) (d : SlotEdit),
      d.takesEffect t.tempSchedule = false → runSlotEdit t d = t) := by
  have h1 := runSlotEdit_of_takesEffect (scheduleViewClick s) c h
  refine ⟨h1, ?_, runSlotEdit_of_not_takesEffect⟩
  intro k
  exact runSlotEdits_keeps_dirty (cs.take k) _ h1

/-- Witness of the amended C6: a toggle of slot 0 followed by a row save that has no
effect. -/
theorem slot_edits_set_dirty_witness :
    isDirty (runSlotEdits
      (scheduleViewClick { initialState with
        schedule := [{ day := "Monday", startTime := "08:00", mode := "Off",
                       endTime := "09:00", enabled := true }] })
      [.toggle 0 false]) = true :=
  (slot_edits_set_dirty
    { initialState with
      schedule := [{ day := "Monday", startTime := "08:00", mode := "Off",
                     endTime := "09:00", enabled := true }] }
    (.toggle 0 false)
    [.saveRow 0 { day := "", startTime := "", mode := "Off", endTime := "", enabled := true }]
    (by decide)).1

/-- On a position of the draft the save listener of an edit row does what
`editScheduleSlot` says: the two agree on the draft and on the dirty flag. -/
theorem saveSlotBtnClick_of_valid (s : AppState) (index : Int) (form : RowForm) (slot : Slot)
    (h : arrayGet s.tempSchedule index = some slot) :
    (saveSlotBtnClick s index form).tempSchedule =
      (editScheduleSlot s index form).state.tempSchedule.map some ∧
    (saveSlotBtnClick s index form).scheduleChanged =
      (editScheduleSlot s index form).state.scheduleChanged := by
  have hnn : 0 ≤ index := by
    by_contra hneg
    simp [arrayGet, hneg] at h
  have hlt : index.toNat < s.tempSchedule.length := by
    simp only [arrayGet, hnn, if_true] at h
    exact (List.getElem?_eq_some_iff.1 h).1
  have hnot : ¬ index < 0 := not_lt.2 hnn
  cases hc : (truthy form.day && truthy form.startTime && truthy form.endTime)
  · simp [saveSlotBtnClick, editScheduleSlot, h, hc]
  · simp [saveSlotBtnClick, editScheduleSlot, h, hc, arrayAssign, hnot, hlt,
      updateSaveButtonStatus, renderSchedule, List.map_set]

/-- C7. The code at the failing input: row 4 is opened for editing while it is a
position of the five-slot draft; after the discard the draft has one slot and
index 4 is not a position of it.  A click on the save button of the edit row
that is still in the table does not fail: it assigns `tempSchedule[4]`, so
the draft grows to length 5 with holes at positions 1 to 3, and the dirty flag
is set.  The enabled checkbox of the display row 3 left in the table does
throw and leaves the draft as it was. -/
theorem stale_row_save_grows_draft :
    arrayGet appliedToWeekdays.tempSchedule 4 =
      some { day := "Friday", startTime := "08:00", mode := "Off", endTime := "09:00",
             enabled := true } ∧
    staleEditRow.tempSchedule =
      [{ day := "Monday", startTime := "08:00", mode := "Off", endTime := "09:00",
         enabled := true }] ∧
    isDirty staleEditRow = false ∧
    arrayGet staleEditRow.tempSchedule 4 = none ∧
    (saveSlotBtnClick staleEditRow 4
      { day := "Friday", startTime := "10:00", mode := "Off", endTime := "11:00",
        enabled := true }).tempSchedule =
      [some { day := "Monday", startTime := "08:00", mode := "Off", endTime := "09:00",
              enabled := true },
       none, none, none,
       some { day := "Friday", startTime := "10:00", mode := "Off", endTime := "11:00",
              enabled := true }] ∧
    (saveSlotBtnClick staleEditRow 4
      { day := "Friday", startTime := "10:00", mode := "Off", endTime := "11:00",
        enabled := true }).tempSchedule.length = 5 ∧
    (saveSlotBtnClick staleEditRow 4
      { day := "Friday", startTime := "10:00", mode := "Off", endTime := "11:00",
        enabled := true }).scheduleChanged = true ∧
    (enabledCheckboxChange staleEditRow 3 false).thrown = some JsError.typeError ∧
    (enabledCheckboxChange staleEditRow 3 false).state.tempSchedule =
      staleEditRow.tempSchedule := by
  decide

/-! ## New rows and the save listener -/

theorem foldl_saveRowStep (rows : List RowForm) (draft : List Slot) (invalid : Bool) :
    rows.foldl saveRowStep (draft, invalid) =
      (draft ++ (rows.filter RowForm.complete).map RowForm.toSlot,
        invalid || rows.any RowForm.flagged) := by
  induction rows generalizing draft invalid with
  | nil => simp
  | cons r rows ih =>
    simp only [List.foldl_cons]
    by_cases hc : (truthy r.day && truthy r.startTime && truthy r.endTime) = true
    · have hc2 : r.complete = true := hc
      simp [saveRowStep, hc, ih, hc2, RowForm.flagged, List.filter_cons]
    · have hc2 : r.complete = false := by simpa [RowForm.complete] using hc
      by_cases hf : (truthy r.startTime || truthy r.endTime) = true
      · simp [saveRowStep, hc, hf, ih, hc2, RowForm.flagged, List.filter_cons]
      · simp [saveRowStep, hc, hf, ih, hc2, RowForm.flagged, List.filter_cons]

theorem saveRows_eq (rows : List RowForm) (draft : List Slot) :
    saveRows rows draft =
      (draft ++ (rows.filter RowForm.complete).map RowForm.toSlot,
        rows.any RowForm.flagged) := by
  simp [saveRows, foldl_saveRowStep]

theorem saveScheduleBtnClick_tempSchedule (s : AppState) :
    (saveScheduleBtnClick s).tempSchedule =
      s.tempSchedule ++ (s.newScheduleRows.filter RowForm.complete).map RowForm.toSlot := by
  unfold saveScheduleBtnClick
  simp only [saveRows_eq]
  split <;>
    simp [saveScheduleWithFeedback, showToast, updateSaveButtonStatus, renderSchedule]

theorem complete_iff (r : RowForm) :
    r.complete = true ↔ r.day ≠ "" ∧ r.startTime ≠ "" ∧ r.endTime ≠ "" := by
  simp [RowForm.complete, truthy, and_assoc]

/-- C8. The save listener on a single new-row candidate: the draft becomes the old
draft followed by the slot with the candidate's day, start time, mode, end
time and enabled flag if and only if day, start time and end time are all
non-empty, and stays as it was if and only if one of them is empty.  With
any number of pending rows, the draft becomes the old draft followed by the
slots of the complete rows, in row order. -/
theorem addSlot_appends_iff_complete (s : AppState) (row : RowForm) :
    ((saveScheduleBtnClick { s with newScheduleRows := [row] }).tempSchedule =
        s.tempSchedule ++
          [{ day := row.day, startTime := row.startTime, mode := row.mode,
             endTime := row.endTime, enabled := row.enabled }] ↔
      (row.day ≠ "" ∧ row.startTime ≠ "" ∧ row.endTime ≠ "")) ∧
    ((saveScheduleBtnClick { s with newScheduleRows := [row] }).tempSchedule = s.tempSchedule ↔
      ¬ (row.day ≠ "" ∧ row.startTime ≠ "" ∧ row.endTime ≠ "")) ∧
    (saveScheduleBtnClick s).tempSchedule =
      s.tempSchedule ++ (s.newScheduleRows.filter RowForm.complete).map RowForm.toSlot := by
  refine ⟨?_, ?_, saveScheduleBtnClick_tempSchedule s⟩
  · rw [saveScheduleBtnClick_tempSchedule, ← complete_iff]
    cases hc : row.complete <;> simp [hc, List.filter_cons, RowForm.toSlot]
  · rw [saveScheduleBtnClick_tempSchedule, ← complete_iff]
    cases hc : row.complete <;> simp [hc, List.filter_cons]

/-- C9, as stated, fails: the untouched new row (Monday, both times empty) has an
empty start time, yet the save listener leaves `invalidEntries` false, shows
no dialog and saves. -/
theorem untouched_row_not_reported :
    emptyNewRow.startTime = "" ∧
    (saveRows [emptyNewRow] []).2 = false ∧
    (saveScheduleBtnClick { initialState with newScheduleRows := [emptyNewRow] }).modal = none ∧
    (saveScheduleBtnClick { initialState with newScheduleRows := [emptyNewRow] }).toasts =
      [{ message := "Schedule saved successfully!", type := "success" }] := by
  decide

/-- C9, amended. For a new-row candidate with an empty day, start time or end time,
the save listener sets `invalidEntries` exactly when the start time or the
end time is non-empty; in that case it commits nothing, does not append the
candidate and, when no dialog has been shown before, shows the
"Incomplete Entries" dialog; otherwise (both times empty) it reports nothing
and goes on to save the draft without the candidate. -/
theorem incomplete_row_reported_iff (s : AppState) (row : RowForm)
    (h : row.day = "" ∨ row.startTime = "" ∨ row.endTime = "") :
    ((saveRows [row] s.tempSchedule).2 = true ↔ (row.startTime ≠ "" ∨ row.endTime ≠ "")) ∧
    ((row.startTime ≠ "" ∨ row.endTime ≠ "") →
      (saveScheduleBtnClick { s with newScheduleRows := [row] }).schedule = s.schedule ∧
      (saveScheduleBtnClick { s with newScheduleRows := [row] }).localStorage =
        s.localStorage ∧
      (saveScheduleBtnClick { s with newScheduleRows := [row] }).tempSchedule =
        s.tempSchedule ∧
      (saveScheduleBtnClick { s with newScheduleRows := [row] }).toasts = s.toasts ∧
      (s.modalButtonsAttached = true →
        (saveScheduleBtnClick { s with newScheduleRows := [row] }).modal =
          some incompleteEntriesModal)) ∧
    ((row.startTime = "" ∧ row.endTime = "") →
      saveScheduleBtnClick { s with newScheduleRows := [row] } =
        saveScheduleWithFeedback { s with newScheduleRows := [row] }) := by
  have hc : row.complete = false := by
    rw [← Bool.not_eq_true, complete_iff]
    intro hh
    rcases h with h | h | h
    · exact hh.1 h
    · exact hh.2.1 h
    · exact hh.2.2 h
  have hf : (truthy row.startTime || truthy row.endTime) = true ↔
      (row.startTime ≠ "" ∨ row.endTime ≠ "") := by
    simp [truthy]
  refine ⟨?_, ?_, ?_⟩
  · simp [saveRows_eq, RowForm.flagged, hc, hf]
  · intro hne
    have hf2 := hf.2 hne
    have hrun : saveScheduleBtnClick { s with newScheduleRows := [row] } =
        (showModal { s with newScheduleRows := [row] } incompleteEntriesModal).state := by
      simp [saveScheduleBtnClick, saveRows_eq, RowForm.flagged, hc, hf2, List.filter_cons]
    rw [hrun]
    refine ⟨?_, ?_, ?_, ?_, ?_⟩
    · unfold showModal; split <;> rfl
    · unfold showModal; split <;> rfl
    · unfold showModal; split <;> rfl
    · unfold showModal; split <;> rfl
    · intro hfirst
      simp [showModal, hfirst]
  · intro he
    have hf2 : (truthy row.startTime || truthy row.endTime) = false := by
      simp [truthy, he.1, he.2]
    simp [saveScheduleBtnClick, saveRows_eq, RowForm.flagged, hc, hf2, List.filter_cons]

/-- Witness of the amended C9: on the page at load, a row with an empty day and both
times filled in is reported by the dialog. -/
theorem incomplete_row_reported_iff_witness :
    (saveScheduleBtnClick
      { initialState with
        newScheduleRows := [{ day := "", startTime := "09:00", mode := "Off",
                              endTime := "17:00", enabled := true }] }).modal =
      some incompleteEntriesModal :=
  ((incomplete_row_reported_iff initialState
    { day := "", startTime := "09:00", mode := "Off", endTime := "17:00", enabled := true }
    (Or.inl rfl)).2.1 (Or.inl (by decide))).2.2.2.2 rfl

/-- C10. The code at the failing input: the clear-all dialog has been shown and
cancelled, then the row of the example (day "", 09:00, 17:00, Off, enabled)
is typed into a new row and the save button is clicked.  The loop sets
`invalidEntries`, but `showModal` throws and no dialog is shown; the draft
keeps its length and the dirty flag is set.  On a page that has shown no
dialog yet the same row and click do show the "Incomplete Entries" dialog. -/
theorem incomplete_row_not_reported_after_dialog :
    afterCancelledClearAll.modal = none ∧
    afterCancelledClearAll.modalButtonsAttached = false ∧
    afterCancelledClearAll.tempSchedule = [] ∧
    (typeExampleRow afterCancelledClearAll).newScheduleRows =
      [{ day := "", startTime := "09:00", mode := "Off", endTime := "17:00",
         enabled := true }] ∧
    (saveRows (typeExampleRow afterCancelledClearAll).newScheduleRows
      (typeExampleRow afterCancelledClearAll).tempSchedule).2 = true ∧
    (showModal (typeExampleRow afterCancelledClearAll) incompleteEntriesModal).thrown =
      some JsError.typeError ∧
    (saveScheduleBtnClick (typeExampleRow afterCancelledClearAll)).modal = none ∧
    (saveScheduleBtnClick (typeExampleRow afterCancelledClearAll)).toasts = [] ∧
    (saveScheduleBtnClick (typeExampleRow afterCancelledClearAll)).tempSchedule.length = 0 ∧
    isDirty (saveScheduleBtnClick (typeExampleRow afterCancelledClearAll)) = true ∧
    (saveScheduleBtnClick
      (typeExampleRow (navButtonClick initialState "schedule-view" true))).modal =
      some incompleteEntriesModal := by
  decide

/-! ## Prompts of the save and clear-all listeners -/

/-- C11. The code at the failing input: with an empty draft, a complete Monday row
and a Tuesday row without end time pending, the save click shows the
"Incomplete Entries" dialog; after "Go Back & Fix" the committed schedule is
still empty and both rows are still pending, but the draft already holds the
Monday slot; completing the Tuesday row and saving again commits the Monday
slot twice. -/
theorem go_back_and_fix_keeps_pushed_rows :
    twoPendingRows.tempSchedule = [] ∧
    (saveScheduleBtnClick twoPendingRows).modal = some incompleteEntriesModal ∧
    (modalCancelClick (saveScheduleBtnClick twoPendingRows)).tempSchedule =
      [{ day := "Monday", startTime := "07:00", mode := "Dimmed Warm", endTime := "08:00",
         enabled := true }] ∧
    (modalCancelClick (saveScheduleBtnClick twoPendingRows)).schedule = [] ∧
    (modalCancelClick (saveScheduleBtnClick twoPendingRows)).newScheduleRows.length = 2 ∧
    (saveScheduleBtnClick
      (newRowChange (modalCancelClick (saveScheduleBtnClick twoPendingRows)) 1
        (.endTime "10:00"))).schedule =
      [{ day := "Monday", startTime := "07:00", mode := "Dimmed Warm", endTime := "08:00",
         enabled := true },
       { day := "Monday", startTime := "07:00", mode := "Dimmed Warm", endTime := "08:00",
         enabled := true },
       { day := "Tuesday", startTime := "09:00", mode := "Off", endTime := "10:00",
         enabled := true }] := by
  decide

/-- C12. Clear-all: with the "Clear Schedule" dialog pending, confirming it makes the
draft empty and sets the dirty flag while the committed schedule and the store
stay as they were; cancelling it (or closing it) leaves draft, committed
schedule, dirty flag and store as they were; either way the dialog is closed.
The click on the clear-all button itself changes none of them in any state,
and on a page that has shown no dialog yet it shows that dialog. -/
theorem clear_all_confirm_or_cancel (s : AppState) (hmodal : s.modal = some clearScheduleModal) :
    ((modalConfirmClick s).tempSchedule = [] ∧
      isDirty (modalConfirmClick s) = true ∧
      (modalConfirmClick s).schedule = s.schedule ∧
      (modalConfirmClick s).localStorage = s.localStorage ∧
      (modalConfirmClick s).modal = none) ∧
    ((modalCancelClick s).tempSchedule = s.tempSchedule ∧
      (modalCancelClick s).schedule = s.schedule ∧
      isDirty (modalCancelClick s) = isDirty s ∧
      (modalCancelClick s).localStorage = s.localStorage ∧
      (modalCancelClick s).modal = none) ∧
    (∀ t : AppState,
      (clearAllBtnClick t).tempSchedule = t.tempSchedule ∧
      (clearAllBtnClick t).schedule = t.schedule ∧
      isDirty (clearAllBtnClick t) = isDirty t ∧
      (clearAllBtnClick t).localStorage = t.localStorage ∧
      (t.modalButtonsAttached = true → (clearAllBtnClick t).modal = some clearScheduleModal)) := by
  refine ⟨?_, ?_, ?_⟩
  · simp [clearScheduleModal, hideModal, modalConfirmClick, hmodal, runModalAction,
      clearScheduleConfirm, showToast, updateSaveButtonStatus, renderSchedule, isDirty]
  · simp [clearScheduleModal, hideModal, modalCancelClick, hmodal, runModalAction, isDirty]
  · intro t
    refine ⟨?_, ?_, ?_, ?_, ?_⟩
    · unfold clearAllBtnClick showModal; split <;> rfl
    · unfold clearAllBtnClick showModal; split <;> rfl
    · unfold clearAllBtnClick showModal isDirty; split <;> rfl
    · unfold clearAllBtnClick showModal; split <;> rfl
    · intro hfirst
      simp [clearAllBtnClick, showModal, hfirst]

/-- Witness of C12: a one-slot draft on the schedule view, the clear-all click, and
"Clear All". -/
theorem clear_all_confirm_or_cancel_witness :
    (clearAllBtnClick dirtyOnScheduleView).modal = some clearScheduleModal ∧
    (clearAllBtnClick dirtyOnScheduleView).tempSchedule =
      [{ day := "Monday", startTime := "08:00", mode := "Off", endTime := "09:00",
         enabled := false }] ∧
    (modalConfirmClick (clearAllBtnClick dirtyOnScheduleView)).tempSchedule = [] :=
  ⟨by decide, by decide,
    (clear_all_confirm_or_cancel (clearAllBtnClick dirtyOnScheduleView) (by decide)).1.1⟩

/-- C13. Apply-to-weekdays with nothing selected: the listener only shows the
warning toast; nothing is thrown and draft, committed schedule, dirty flag and
store stay as they were. -/
theorem apply_weekdays_no_selection (s : AppState) :
    (applyWeekdaysBtnClick s []).thrown = none ∧
    (applyWeekdaysBtnClick s []).state =
      showToast s "Please select at least one schedule slot to apply to weekdays" "warning" ∧
    (applyWeekdaysBtnClick s []).state.toasts =
      s.toasts ++ [{ message := "Please select at least one schedule slot to apply to weekdays",
                     type := "warning" }] ∧
    (applyWeekdaysBtnClick s []).state.tempSchedule = s.tempSchedule ∧
    (applyWeekdaysBtnClick s []).state.schedule = s.schedule ∧
    isDirty (applyWeekdaysBtnClick s []).state = isDirty s ∧
    (applyWeekdaysBtnClick s []).state.localStorage = s.localStorage := by
  simp [applyWeekdaysBtnClick, showToast, isDirty]

/-! ## Apply to weekdays -/

theorem arrayGet_isSome_of_valid {α : Type} (xs : List α) (index : Int)
    (h : 0 ≤ index ∧ index < (xs.length : Int)) : (arrayGet xs index).isSome = true := by
  cases hg : arrayGet xs index with
  | some a => rfl
  | none =>
    have := (arrayGet_eq_none_iff xs index).1 hg
    omega

theorem applyToSelected_eq (draft : List Slot) (sel : List Int) (acc : List Slot)
    (h : ∀ i ∈ sel, (arrayGet draft i).isSome = true) :
    applyToSelected draft sel acc =
      some (acc ++ sel.flatMap fun i => (arrayGet draft i).toList.flatMap weekdayCopies) := by
  induction sel generalizing acc with
  | nil => simp [applyToSelected]
  | cons i rest ih =>
    have hi := h i (List.mem_cons_self i rest)
    have hrest : ∀ j ∈ rest, (arrayGet draft j).isSome = true :=
      fun j hj => h j (List.mem_cons_of_mem i hj)
    cases hg : arrayGet draft i with
    | none => simp [hg] at hi
    | some slot => simp [applyToSelected, hg, ih _ hrest, List.flatMap_cons]

theorem weekdayCopies_days (slot : Slot) :
    (weekdayCopies slot).map Slot.day = weekdays.filter fun day => day != slot.day := by
  simp [weekdayCopies, List.map_map, Function.comp_def]

theorem weekdayCopies_mem (slot c : Slot) (h : c ∈ weekdayCopies slot) :
    c = { slot with day := c.day } ∧ c.day ≠ slot.day ∧ c.day ∈ weekdays := by
  simp only [weekdayCopies, List.mem_map, List.mem_filter] at h
  obtain ⟨day, ⟨hmem, hne⟩, rfl⟩ := h
  refine ⟨rfl, ?_, hmem⟩
  simpa using hne

theorem weekdayCopies_length_of_weekday (slot : Slot) (h : slot.day ∈ weekdays) :
    (weekdayCopies slot).length = 4 := by
  simp only [weekdays, List.mem_cons, List.mem_singleton, List.not_mem_nil, or_false] at h
  rcases h with h | h | h | h | h <;> simp [weekdayCopies, weekdays, h, List.filter_cons]

theorem weekdayCopies_length_of_other (slot : Slot) (h : slot.day ∉ weekdays) :
    (weekdayCopies slot).length = 5 := by
  have hf : (weekdays.filter fun day => day != slot.day) = weekdays := by
    rw [List.filter_eq_self]
    intro day hday
    simp only [bne_iff_ne, ne_eq]
    intro heq
    exact h (heq ▸ hday)
  simp only [weekdayCopies, hf, List.length_map]
  rfl

/-- C14. When slot `i` of the draft is Monday 08:00-09:00, Cool White, enabled,
apply-to-weekdays on the selection `[i]` throws nothing and makes the draft
the old draft followed by exactly four slots, for Tuesday, Wednesday,
Thursday and Friday in that order, with the start time, end time, mode and
enabled flag of slot `i`. -/
theorem apply_weekdays_monday_slot (s : AppState) (i : Int)
    (h : arrayGet s.tempSchedule i =
      some { day := "Monday", startTime := "08:00", mode := "Cool White", endTime := "09:00",
             enabled := true }) :
    (applyWeekdaysBtnClick s [i]).thrown = none ∧
    (applyWeekdaysBtnClick s [i]).state.tempSchedule =
      s.tempSchedule ++
        [{ day := "Tuesday", startTime := "08:00", mode := "Cool White", endTime := "09:00",
           enabled := true },
         { day := "Wednesday", startTime := "08:00", mode := "Cool White", endTime := "09:00",
           enabled := true },
         { day := "Thursday", startTime := "08:00", mode := "Cool White", endTime := "09:00",
           enabled := true },
         { day := "Friday", startTime := "08:00", mode := "Cool White", endTime := "09:00",
           enabled := true }] ∧
    (applyWeekdaysBtnClick s [i]).state.tempSchedule.length = s.tempSchedule.length + 4 := by
  simp [applyWeekdaysBtnClick, applyToSelected, h, weekdayCopies, weekdays, List.filter_cons,
    showToast, updateSaveButtonStatus, renderSchedule]

/-- Witness of C14: the Monday slot at index 1 of a two-slot draft. -/
theorem apply_weekdays_monday_slot_witness :
    (applyWeekdaysBtnClick
      { initialState with
        tempSchedule :=
          [{ day := "Sunday", startTime := "10:00", mode := "Off", endTime := "11:00",
             enabled := false },
           { day := "Monday", startTime := "08:00", mode := "Cool White", endTime := "09:00",
             enabled := true }] }
      [1]).state.tempSchedule.length = 2 + 4 :=
  (apply_weekdays_monday_slot
    { initialState with
      tempSchedule :=
        [{ day := "Sunday", startTime := "10:00", mode := "Off", endTime := "11:00",
           enabled := false },
         { day := "Monday", startTime := "08:00", mode := "Cool White", endTime := "09:00",
           enabled := true }] }
    1 (by decide)).2.2

/-- C15. For a non-empty selection of valid indices, apply-to-weekdays throws
nothing, sets the dirty flag and makes the draft the old draft followed, for
each selected index in order, by the weekday copies of that slot.  The copies
of a slot are one per weekday of Monday..Friday, in that order, other than the
slot's own day; each copy differs from the slot at most in its day; there are
4 of them when the slot's day is a weekday and 5 otherwise, so for Saturday,
Sunday and Everyday. -/
theorem apply_weekdays_general (s : AppState) (sel : List Int) (hne : sel ≠ [])
    (hvalid : ∀ i ∈ sel, 0 ≤ i ∧ i < (s.tempSchedule.length : Int)) :
    (applyWeekdaysBtnClick s sel).thrown = none ∧
    (applyWeekdaysBtnClick s sel).state.tempSchedule =
      s.tempSchedule ++
        sel.flatMap (fun i => (arrayGet s.tempSchedule i).toList.flatMap weekdayCopies) ∧
    isDirty (applyWeekdaysBtnClick s sel).state = true ∧
    (∀ slot : Slot,
      (weekdayCopies slot).map Slot.day = weekdays.filter (fun day => day != slot.day) ∧
      (∀ c ∈ weekdayCopies slot,
        c = { slot with day := c.day } ∧ c.day ≠ slot.day ∧ c.day ∈ weekdays) ∧
      (slot.day ∈ weekdays → (weekdayCopies slot).length = 4) ∧
      (slot.day ∉ weekdays → (weekdayCopies slot).length = 5) ∧
      (slot.day = "Saturday" ∨ slot.day = "Sunday" ∨ slot.day = "Everyday" →
        (weekdayCopies slot).length = 5)) := by
  have hsome : ∀ i ∈ sel, (arrayGet s.tempSchedule i).isSome = true :=
    fun i hi => arrayGet_isSome_of_valid s.tempSchedule i (hvalid i hi)
  have hrun := applyToSelected_eq s.tempSchedule sel s.tempSchedule hsome
  have hlen : ¬ sel.length = 0 := by
    intro h0
    exact hne (List.length_eq_zero.mp h0)
  refine ⟨?_, ?_, ?_, ?_⟩
  · simp [applyWeekdaysBtnClick, hlen, hrun]
  · simp [applyWeekdaysBtnClick, hlen, hrun, showToast, updateSaveButtonStatus, renderSchedule]
  · simp [applyWeekdaysBtnClick, hlen, hrun, showToast, updateSaveButtonStatus, renderSchedule,
      isDirty]
  · intro slot
    refine ⟨weekdayCopies_days slot, weekdayCopies_mem slot,
      weekdayCopies_length_of_weekday slot, weekdayCopies_length_of_other slot, ?_⟩
    intro hday
    apply weekdayCopies_length_of_other
    rcases hday with h | h | h <;> rw [h] <;> decide

/-- Witness of C15: both slots of a two-slot draft selected, a Sunday slot and a
Monday slot, give 5 + 4 copies. -/
theorem apply_weekdays_general_witness :
    isDirty (applyWeekdaysBtnClick
      { initialState with
        tempSchedule :=
          [{ day := "Sunday", startTime := "10:00", mode := "Off", endTime := "11:00",
             enabled := false },
           { day := "Monday", startTime := "08:00", mode := "Cool White", endTime := "09:00",
             enabled := true }] }
      [0, 1]).state = true ∧
    (applyWeekdaysBtnClick
      { initialState with
        tempSchedule :=
          [{ day := "Sunday", startTime := "10:00", mode := "Off", endTime := "11:00",
             enabled := false },
           { day := "Monday", startTime := "08:00", mode := "Cool White", endTime := "09:00",
             enabled := true }] }
      [0, 1]).state.tempSchedule.length = 2 + 5 + 4 :=
  ⟨(apply_weekdays_general
    { initialState with
      tempSchedule :=
        [{ day := "Sunday", startTime := "10:00", mode := "Off", endTime := "11:00",
           enabled := false },
         { day := "Monday", startTime := "08:00", mode := "Cool White", endTime := "09:00",
           enabled := true }] }
    [0, 1] (by decide) (by decide)).2.2.1, by decide⟩

/-! ## Discard and the navigation guard -/

/-- C16. The schedule-view click immediately followed by the discard callback gives
the same draft as the schedule-view click alone, namely the committed
schedule, and the dirty flag is clear in both states. -/
theorem beginEditing_then_discard_noop (s : AppState) (targetView : String) :
    (discardChangesConfirm (scheduleViewClick s) targetView).tempSchedule =
      (scheduleViewClick s).tempSchedule ∧
    (scheduleViewClick s).tempSchedule = s.schedule ∧
    isDirty (discardChangesConfirm (scheduleViewClick s) targetView) = false ∧
    isDirty (scheduleViewClick s) = false := by
  simp [discardChangesConfirm, scheduleViewClick, updateSaveButtonStatus, renderSchedule,
    isDirty]

theorem onlyActive_activate (target : String) (elems : List (String × Bool)) :
    onlyActive target (activate target elems) := by
  intro e he
  simp only [activate, List.mem_map] at he
  obtain ⟨a, _, rfl⟩ := he
  simp

theorem activate_ids (target : String) (elems : List (String × Bool)) :
    (activate target elems).map Prod.fst = elems.map Prod.fst := by
  simp [activate, List.map_map, Function.comp_def]

/-- C17. Navigation guard, clean case: with a clear dirty flag, a click on a nav
button other than the schedule one, whatever the `confirm` answer would be,
makes the target view the only active view and the target button the only
active button, presents no dialog and no toast, and leaves draft, committed
schedule, dirty flag and store as they were. -/
theorem nav_click_clean (s : AppState) (target : String) (confirmAnswer : Bool)
    (hclean : isDirty s = false) (htarget : target ≠ "schedule-view") :
    checkUnsavedChanges s confirmAnswer = true ∧
    (navButtonClick s target confirmAnswer).views = activate target s.views ∧
    onlyActive target (navButtonClick s target confirmAnswer).views ∧
    (navButtonClick s target confirmAnswer).views.map Prod.fst = s.views.map Prod.fst ∧
    onlyActive target (navButtonClick s target confirmAnswer).navButtons ∧
    (navButtonClick s target confirmAnswer).navButtons.map Prod.fst =
      s.navButtons.map Prod.fst ∧
    (navButtonClick s target confirmAnswer).modal = s.modal ∧
    (navButtonClick s target confirmAnswer).toasts = s.toasts ∧
    (navButtonClick s target confirmAnswer).tempSchedule = s.tempSchedule ∧
    (navButtonClick s target confirmAnswer).schedule = s.schedule ∧
    isDirty (navButtonClick s target confirmAnswer) = false ∧
    (navButtonClick s target confirmAnswer).localStorage = s.localStorage := by
  have hc : s.scheduleChanged = false := hclean
  have hrun : navButtonClick s target confirmAnswer = viewSwitchClick s target := by
    simp [navButtonClick, htarget, checkUnsavedChanges, navGuardClick, viewSwitchClick, hc]
  rw [hrun]
  refine ⟨by simp [checkUnsavedChanges, hc], rfl, onlyActive_activate _ _, activate_ids _ _,
    onlyActive_activate _ _, activate_ids _ _, rfl, rfl, rfl, rfl, ?_, rfl⟩
  simpa [viewSwitchClick, isDirty] using hc

/-- Witness of C17: the rooms button from the page-load state. -/
theorem nav_click_clean_witness :
    (navButtonClick initialState "rooms-view" false).views =
      [("home-view", false), ("rooms-view", true), ("schedule-view", false),
        ("savings-view", false), ("room-control-view", false)] :=
  (nav_click_clean initialState "rooms-view" false rfl (by decide)).2.1

/-- C18. Navigation guard, discard: in a dirty state with the unsaved-changes dialog
for `targetView` pending, a click on "Discard Changes" makes the draft equal
to the committed schedule, clears the dirty flag, leaves the committed
schedule and the store as they were, makes the target view the only active
view and the target button the only active button, and closes the dialog. -/
theorem nav_guard_discard (s : AppState) (targetView : String) (hdirty : isDirty s = true)
    (hmodal : s.modal = some (unsavedChangesModal targetView)) :
    (modalConfirmClick s).tempSchedule = s.schedule ∧
    (modalConfirmClick s).tempSchedule = (modalConfirmClick s).schedule ∧
    isDirty (modalConfirmClick s) = false ∧
    isDirty (modalConfirmClick s) ≠ isDirty s ∧
    (modalConfirmClick s).schedule = s.schedule ∧
    (modalConfirmClick s).localStorage = s.localStorage ∧
    onlyActive targetView (modalConfirmClick s).views ∧
    (modalConfirmClick s).views.map Prod.fst = s.views.map Prod.fst ∧
    onlyActive targetView (modalConfirmClick s).navButtons ∧
    (modalConfirmClick s).navButtons.map Prod.fst = s.navButtons.map Prod.fst ∧
    (modalConfirmClick s).modal = none := by
  have hrun : modalConfirmClick s = hideModal (discardChangesConfirm s targetView) := by
    simp [modalConfirmClick, hmodal, unsavedChangesModal, runModalAction]
  rw [hrun, hdirty]
  refine ⟨?_, ?_, ?_, ?_, rfl, rfl, onlyActive_activate _ _, activate_ids _ _,
    onlyActive_activate _ _, activate_ids _ _, rfl⟩ <;>
    simp [hideModal, discardChangesConfirm, isDirty]

/-- Witness of C18: a slot toggled after the schedule-view click, then a click on the
home button answered "Leave anyway", then "Discard Changes". -/
theorem nav_guard_discard_witness :
    (modalConfirmClick promptAfterToggle).tempSchedule =
      [{ day := "Monday", startTime := "08:00", mode := "Off", endTime := "09:00",
         enabled := true }] :=
  (nav_guard_discard promptAfterToggle "home-view" (by decide) (by decide)).1

/-- C19. The code at the failing input: a slot is toggled after the schedule-view
click and the home button is clicked with the `confirm` question answered
with OK, which shows the unsaved-changes dialog.  "Stay & Save" leaves draft,
committed schedule and dirty flag as they were, makes the schedule view and
its button the only active ones and closes the dialog.  A further click, on
the rooms button, asks the `confirm` question; answered with OK, `showModal`
throws, no dialog is shown, the rooms view and its button are the only active
ones and the dirty flag is still set. -/
theorem stay_then_navigate_shows_no_dialog :
    promptAfterToggle.modal = some (unsavedChangesModal "home-view") ∧
    isDirty promptAfterToggle = true ∧
    (modalCancelClick promptAfterToggle).tempSchedule = promptAfterToggle.tempSchedule ∧
    (modalCancelClick promptAfterToggle).schedule = promptAfterToggle.schedule ∧
    isDirty (modalCancelClick promptAfterToggle) = true ∧
    onlyActive "schedule-view" (modalCancelClick promptAfterToggle).views ∧
    onlyActive "schedule-view" (modalCancelClick promptAfterToggle).navButtons ∧
    (modalCancelClick promptAfterToggle).modal = none ∧
    checkUnsavedChanges (modalCancelClick promptAfterToggle) false = false ∧
    (showModal (viewSwitchClick (modalCancelClick promptAfterToggle) "rooms-view")
      (unsavedChangesModal "rooms-view")).thrown = some JsError.typeError ∧
    (navButtonClick (modalCancelClick promptAfterToggle) "rooms-view" true).modal = none ∧
    onlyActive "rooms-view"
      (navButtonClick (modalCancelClick promptAfterToggle) "rooms-view" true).views ∧
    onlyActive "rooms-view"
      (navButtonClick (modalCancelClick promptAfterToggle) "rooms-view" true).navButtons ∧
    isDirty (navButtonClick (modalCancelClick promptAfterToggle) "rooms-view" true) = true ∧
    (navButtonClick (modalCancelClick promptAfterToggle) "rooms-view" true).tempSchedule =
      promptAfterToggle.tempSchedule := by
  decide

/-- C20. The code at the failing input: a slot is toggled after the schedule-view
click and the home button is clicked, the `confirm` question being answered
with OK.  The dialog is then pending with the home view already active.
Escape closes the dialog and keeps draft and dirty flag, as "Stay & Save"
does, but it leaves the home view active, whereas "Stay & Save" makes the
schedule view the active one again. -/
theorem escape_leaves_target_view_active :
    promptAfterToggle.modal = some (unsavedChangesModal "home-view") ∧
    (handleModalKeydown promptAfterToggle "Escape").views =
      [("home-view", true), ("rooms-view", false), ("schedule-view", false),
        ("savings-view", false), ("room-control-view", false)] ∧
    (modalCancelClick promptAfterToggle).views =
      [("home-view", false), ("rooms-view", false), ("schedule-view", true),
        ("savings-view", false), ("room-control-view", false)] ∧
    (handleModalKeydown promptAfterToggle "Escape").tempSchedule =
      [{ day := "Monday", startTime := "08:00", mode := "Off", endTime := "09:00",
         enabled := false }] ∧
    isDirty (handleModalKeydown promptAfterToggle "Escape") = true ∧
    (handleModalKeydown promptAfterToggle "Escape").modal = none := by
  decide

/-- C21. The code at the failing input: the schedule view is on screen with a
toggled slot, so dirty.  A click on a back button makes the home view the
active one at once, shows no dialog and keeps the dirty flag; the next click
on the schedule button then resets the draft to the committed schedule.  A
click on the home nav button asks the `confirm` question first: answered with
Cancel, nothing changes; answered with OK, the home view is already the
active one when the unsaved-changes dialog is shown. -/
theorem exit_from_dirty_schedule_view_unguarded :
    isDirty dirtyOnScheduleView = true ∧
    scheduleVisible dirtyOnScheduleView = true ∧
    (backBtnClick dirtyOnScheduleView ["home-view"]).1.views =
      [("home-view", true), ("rooms-view", false), ("schedule-view", false),
        ("savings-view", false), ("room-control-view", false)] ∧
    (backBtnClick dirtyOnScheduleView ["home-view"]).1.modal = none ∧
    isDirty (backBtnClick dirtyOnScheduleView ["home-view"]).1 = true ∧
    dirtyOnScheduleView.tempSchedule =
      [{ day := "Monday", startTime := "08:00", mode := "Off", endTime := "09:00",
         enabled := false }] ∧
    (navButtonClick (backBtnClick dirtyOnScheduleView ["home-view"]).1 "schedule-view"
        true).tempSchedule =
      [{ day := "Monday", startTime := "08:00", mode := "Off", endTime := "09:00",
         enabled := true }] ∧
    (navButtonClick dirtyOnScheduleView "home-view" false).views = dirtyOnScheduleView.views ∧
    (navButtonClick dirtyOnScheduleView "home-view" false).modal = none ∧
    (navButtonClick dirtyOnScheduleView "home-view" true).views =
      [("home-view", true), ("rooms-view", false), ("schedule-view", false),
        ("savings-view", false), ("room-control-view", false)] ∧
    (navButtonClick dirtyOnScheduleView "home-view" true).modal =
      some (unsavedChangesModal "home-view") := by
  decide

/-! ## Persistent store -/

theorem room_ofJson?_toJson (r : Room) : Room.ofJson? r.toJson = some r := by
  cases r
  simp [Room.ofJson?, Room.toJson, List.lookup]

theorem parseRoomItems_map_toJson (rooms : List Room) :
    parseRoomItems (rooms.map Room.toJson) = some rooms := by
  induction rooms with
  | nil => rfl
  | cons r rooms ih => simp [parseRoomItems, room_ofJson?_toJson, ih]

theorem parseRooms_stringifyRooms (rooms : List Room) :
    parseRooms (stringifyRooms rooms) = some rooms := by
  simp [parseRooms, stringifyRooms, parseRoomItems_map_toJson]

theorem getRooms_saveRooms (ls : LocalStorage) (rooms : List Room) :
    getRooms (saveRooms ls rooms) = some rooms := by
  have h := parseRooms_stringifyRooms rooms
  simp [getRooms, saveRooms, LocalStorage.getItem, LocalStorage.setItem, h,
    show (stringifyRooms rooms).truthy = true from rfl]

theorem parseNumbers_map_num (ns : List ℚ) : parseNumbers (ns.map Json.num) = some ns := by
  induction ns with
  | nil => rfl
  | cons n ns ih => simp [parseNumbers, Json.number?, ih]

theorem parseStrings_map_str (vs : List String) : parseStrings (vs.map Json.str) = some vs := by
  induction vs with
  | nil => rfl
  | cons v vs ih => simp [parseStrings, Json.string?, ih]

theorem savingsData_ofJson?_toJson (d : SavingsData) : SavingsData.ofJson? d.toJson = some d := by
  cases d
  simp [SavingsData.ofJson?, SavingsData.toJson, List.lookup, parseNumbers_map_num,
    parseStrings_map_str]

theorem getSavingsData_saveSavingsData (ls : LocalStorage) (d : SavingsData) :
    getSavingsData (saveSavingsData ls d) = some d := by
  have h := savingsData_ofJson?_toJson d
  simp [getSavingsData, saveSavingsData, LocalStorage.getItem, LocalStorage.setItem, h,
    show d.toJson.truthy = true from rfl]

/-- C22. Store round trip with whole-value replace: whatever the store held,
`getSchedule()` after `saveSchedule(s)` is `s`, also for `s = []`;
`getRooms()` after `saveRooms(r)` is `r`, also for `r = []`;
`getSavingsData()` after `saveSavingsData(d)` is `d`; and a save replaces the
whole entry of its key and leaves every other key as it was. -/
theorem store_roundtrip (ls : LocalStorage) (schedule : List Slot) (rooms : List Room)
    (data : SavingsData) :
    getSchedule (saveSchedule ls schedule) = some schedule ∧
    getSchedule (saveSchedule ls []) = some [] ∧
    getRooms (saveRooms ls rooms) = some rooms ∧
    getRooms (saveRooms ls []) = some [] ∧
    getSavingsData (saveSavingsData ls data) = some data ∧
    (saveSchedule ls schedule).getItem "schedule" = some (stringifySchedule schedule) ∧
    (saveRooms ls rooms).getItem "rooms" = some (stringifyRooms rooms) ∧
    (saveSavingsData ls data).getItem "savings" = some data.toJson ∧
    (∀ key, key ≠ "schedule" → (saveSchedule ls schedule).getItem key = ls.getItem key) ∧
    (∀ key, key ≠ "rooms" → (saveRooms ls rooms).getItem key = ls.getItem key) ∧
    (∀ key, key ≠ "savings" → (saveSavingsData ls data).getItem key = ls.getItem key) := by
  refine ⟨getSchedule_saveSchedule ls schedule, getSchedule_saveSchedule ls [],
    getRooms_saveRooms ls rooms, getRooms_saveRooms ls [],
    getSavingsData_saveSavingsData ls data, ?_, ?_, ?_, ?_, ?_, ?_⟩ <;>
    simp +contextual [saveSchedule, saveRooms, saveSavingsData, LocalStorage.getItem,
      LocalStorage.setItem]

/-! ## Rooms -/

theorem truthy_eq_false_iff (v : String) : truthy v = false ↔ v = "" := by
  simp [truthy]

/-- C23. Add-room: when the trimmed name is empty or equals the name of an existing
room after lower-casing both, the room list and the store are unchanged;
otherwise the room list becomes the old one followed by the room with the
trimmed name, mode "Off", brightness 0, temperature 2700 and occupancy off,
and is stored as such.  In both cases a room list without two equal
lower-cased names stays so. -/
theorem add_room_rejects_duplicates (toLowerCase : String → String) (p : Page)
    (input : String) :
    ((trim input = "" ∨ ∃ r ∈ p.rooms, toLowerCase r.name = toLowerCase (trim input)) →
      (addRoomConfirm toLowerCase p input).rooms = p.rooms ∧
      (addRoomConfirm toLowerCase p input).app.localStorage = p.app.localStorage) ∧
    (¬ (trim input = "" ∨ ∃ r ∈ p.rooms, toLowerCase r.name = toLowerCase (trim input)) →
      (addRoomConfirm toLowerCase p input).rooms =
        p.rooms ++ [{ name := trim input, mode := "Off", brightness := 0, temp := 2700,
                      occupancy := false }] ∧
      getRooms (addRoomConfirm toLowerCase p input).app.localStorage =
        some (p.rooms ++ [{ name := trim input, mode := "Off", brightness := 0, temp := 2700,
                            occupancy := false }])) ∧
    ((p.rooms.map fun r => toLowerCase r.name).Nodup →
      ((addRoomConfirm toLowerCase p input).rooms.map fun r => toLowerCase r.name).Nodup) := by
  by_cases hempty : trim input = ""
  · have ht : truthy (trim input) = false := (truthy_eq_false_iff _).2 hempty
    have hrun : addRoomConfirm toLowerCase p input =
        { p with app := showToast p.app "Please enter a room name" "error" } := by
      simp [addRoomConfirm, ht]
    rw [hrun]
    exact ⟨fun _ => ⟨rfl, rfl⟩, fun h => absurd (Or.inl hempty) h, fun h => h⟩
  · have ht : truthy (trim input) = true := by
      cases h : truthy (trim input) with
      | true => rfl
      | false => exact absurd ((truthy_eq_false_iff _).1 h) hempty
    by_cases hdup : ∃ r ∈ p.rooms, toLowerCase r.name = toLowerCase (trim input)
    · have hany : (p.rooms.any fun r => toLowerCase r.name == toLowerCase (trim input)) = true := by
        simpa [List.any_eq_true] using hdup
      have hrun : addRoomConfirm toLowerCase p input =
          { p with app := showToast p.app "A room with this name already exists" "error" } := by
        simp only [addRoomConfirm, ht, hany]
        rfl
      rw [hrun]
      exact ⟨fun _ => ⟨rfl, rfl⟩, fun h => absurd (Or.inr hdup) h, fun h => h⟩
    · have hany : (p.rooms.any fun r => toLowerCase r.name == toLowerCase (trim input)) = false := by
        rw [← Bool.not_eq_true]
        intro h
        exact hdup (by simpa [List.any_eq_true] using h)
      have hstore := getRooms_saveRooms p.app.localStorage (p.rooms ++ [newRoom (trim input)])
      have hrun : addRoomConfirm toLowerCase p input =
          { p with
            rooms := p.rooms ++ [newRoom (trim input)],
            app := showToast
              { p.app with
                localStorage := saveRooms p.app.localStorage (p.rooms ++ [newRoom (trim input)]) }
              ("Room \"" ++ trim input ++ "\" has been added") "success" } := by
        simp only [addRoomConfirm, ht, hany]
        rfl
      rw [hrun]
      refine ⟨?_, ?_, ?_⟩
      · intro h
        rcases h with h | h
        · exact absurd h hempty
        · exact absurd h hdup
      · intro _
        exact ⟨rfl, hstore⟩
      · intro hnodup
        simp only [List.map_append, List.map_cons, List.map_nil]
        rw [List.nodup_append]
        refine ⟨hnodup, List.nodup_singleton _, ?_⟩
        intro a ha hb
        simp only [List.mem_singleton] at hb
        simp only [List.mem_map] at ha
        obtain ⟨r, hr, hra⟩ := ha
        exact hdup ⟨r, hr, by rw [hra, hb]; rfl⟩

/-- Witness of C23: "Kitchen", typed with blanks around it, is added to the default
rooms; "living room" is rejected. -/
theorem add_room_rejects_duplicates_witness :
    (addRoomConfirm asciiToLowerCase initialPage " Kitchen ").rooms =
      defaultRooms ++ [{ name := "Kitchen", mode := "Off", brightness := 0, temp := 2700,
                         occupancy := false }] ∧
    (addRoomConfirm asciiToLowerCase initialPage "living room").rooms = defaultRooms :=
  ⟨by
    have h := (add_room_rejects_duplicates asciiToLowerCase initialPage " Kitchen ").2.1
      (by decide)
    rw [h.1]
    decide,
  ((add_room_rejects_duplicates asciiToLowerCase initialPage "living room").1
    (Or.inr ⟨_, List.mem_cons_self _ _, by decide⟩)).1⟩

/-- C24. The code at the failing input: the default rooms "Living Room" and
"Bedroom" have different keys; the name "living-room" differs from both after
lower-casing, so the add-room callback accepts it, and the resulting list
holds two rooms with the key "living-room". -/
theorem add_room_accepts_colliding_slug :
    (defaultRooms.map fun r => slugify asciiToLowerCase r.name) = ["living-room", "bedroom"] ∧
    (defaultRooms.map fun r => slugify asciiToLowerCase r.name).Nodup ∧
    (addRoomConfirm asciiToLowerCase initialPage "living-room").rooms =
      defaultRooms ++ [{ name := "living-room", mode := "Off", brightness := 0, temp := 2700,
                         occupancy := false }] ∧
    ((addRoomConfirm asciiToLowerCase initialPage "living-room").rooms.map
        fun r => slugify asciiToLowerCase r.name) =
      ["living-room", "bedroom", "living-room"] ∧
    ¬ ((addRoomConfirm asciiToLowerCase initialPage "living-room").rooms.map
        fun r => slugify asciiToLowerCase r.name).Nodup := by
  decide

/-- C25. Eco mode: switching it on replaces every room by the room with brightness
`min brightness 70` and temperature `min temp 3500`; number, order, names,
modes and occupancy flags are unchanged, every room ends with brightness at
most 70 and temperature at most 3500, and the capped list is the one stored.
Switching it off leaves the room list and the stored rooms as they were. -/
theorem eco_mode_caps (p : Page) :
    (ecoToggleChange p true).rooms =
      p.rooms.map (fun r =>
        { r with brightness := min r.brightness 70, temp := min r.temp 3500 }) ∧
    (ecoToggleChange p true).rooms.length = p.rooms.length ∧
    (ecoToggleChange p true).rooms.map Room.name = p.rooms.map Room.name ∧
    (ecoToggleChange p true).rooms.map Room.mode = p.rooms.map Room.mode ∧
    (ecoToggleChange p true).rooms.map Room.occupancy = p.rooms.map Room.occupancy ∧
    (∀ r ∈ (ecoToggleChange p true).rooms, r.brightness ≤ 70 ∧ r.temp ≤ 3500) ∧
    getRooms (ecoToggleChange p true).app.localStorage = some (ecoToggleChange p true).rooms ∧
    (ecoToggleChange p false).rooms = p.rooms ∧
    (ecoToggleChange p false).app.localStorage.getItem "rooms" =
      p.app.localStorage.getItem "rooms" := by
  have hon : (ecoToggleChange p true).rooms = p.rooms.map ecoCap := by
    simp [ecoToggleChange]
  refine ⟨by rw [hon]; rfl, by simp [hon], ?_, ?_, ?_, ?_, ?_, ?_, ?_⟩
  · simp [hon, List.map_map, Function.comp_def, ecoCap]
  · simp [hon, List.map_map, Function.comp_def, ecoCap]
  · simp [hon, List.map_map, Function.comp_def, ecoCap]
  · intro r hr
    rw [hon, List.mem_map] at hr
    obtain ⟨a, _, rfl⟩ := hr
    exact ⟨min_le_right _ _, min_le_right _ _⟩
  · rw [hon]
    simp only [ecoToggleChange, if_true, showToast]
    exact getRooms_saveRooms _ _
  · simp [ecoToggleChange]
  · simp only [ecoToggleChange, Bool.false_eq_true, if_false, showToast]
    cases getSavingsData p.app.localStorage <;>
      simp [saveSavingsData, LocalStorage.getItem, LocalStorage.setItem]

/-! ## Room control -/

theorem findIndex_some {α : Type} (q : α → Bool) (xs : List α) (i : Nat)
    (h : findIndex q xs = some i) :
    ∃ x, xs[i]? = some x ∧ q x = true ∧ xs.find? q = some x ∧
      ∀ j y, j < i → xs[j]? = some y → q y = false := by
  induction xs generalizing i with
  | nil => simp [findIndex] at h
  | cons a xs ih =>
    by_cases ha : q a = true
    · simp only [findIndex, ha, if_true, Option.some.injEq] at h
      subst h
      exact ⟨a, by simp, ha, by simp [List.find?, ha],
        fun j y hj => absurd hj (Nat.not_lt_zero j)⟩
    · simp only [findIndex, ha, Bool.false_eq_true, if_false, Option.map_eq_some'] at h
      obtain ⟨k, hk, rfl⟩ := h
      obtain ⟨x, hx, hq, hfind, hfirst⟩ := ih k hk
      have ha2 : q a = false := by simpa using ha
      refine ⟨x, by simpa using hx, hq, by simp [List.find?, ha2, hfind], ?_⟩
      intro j y hj hy
      cases j with
      | zero =>
        simp only [List.getElem?_cons_zero, Option.some.injEq] at hy
        rw [← hy]
        exact ha2
      | succ j =>
        simp only [List.getElem?_cons_succ] at hy
        exact hfirst j y (by omega) hy

theorem findIndex_none {α : Type} (q : α → Bool) (xs : List α) :
    findIndex q xs = none ↔ ∀ x ∈ xs, q x = false := by
  induction xs with
  | nil => simp [findIndex]
  | cons a xs ih =>
    by_cases ha : q a = true
    · simp [findIndex, ha]
    · have ha2 : q a = false := by simpa using ha
      simp [findIndex, ha2, ih]

theorem hasKey_some (toLowerCase : String → String) (key : String) (r : Room) :
    hasKey toLowerCase (some key) r = true ↔ slugify toLowerCase r.name = key := by
  simp [hasKey]

theorem hasKey_some_false (toLowerCase : String → String) (key : String) (r : Room) :
    hasKey toLowerCase (some key) r = false ↔ slugify toLowerCase r.name ≠ key := by
  rw [← Bool.not_eq_true, hasKey_some]

/-- C26. With a room copy in `tempRoomState` and a room matching the current key, the
Apply button replaces that room in memory by the copy carrying the control
values and leaves the store as it was (as it does in every state), whereas the
Save button makes the same replacement and stores the resulting room list. -/
theorem apply_does_not_persist (toLowerCase : String → String) (p : Page) (c : Controls)
    (t : Room) (idx : Nat) (ht : p.tempRoomState = some t)
    (hidx : findIndex (hasKey toLowerCase p.currentRoomKey) p.rooms = some idx) :
    (applyBtnClick toLowerCase p c).thrown = none ∧
    (applyBtnClick toLowerCase p c).page.rooms =
      p.rooms.set idx { name := t.name, mode := c.mode, brightness := c.brightness,
                        temp := c.temp, occupancy := c.occupancy } ∧
    (applyBtnClick toLowerCase p c).page.app.localStorage = p.app.localStorage ∧
    (∀ q : Page, (applyBtnClick toLowerCase q c).page.app.localStorage = q.app.localStorage) ∧
    (saveBtnClick toLowerCase p c).thrown = none ∧
    (saveBtnClick toLowerCase p c).page.rooms =
      p.rooms.set idx { name := t.name, mode := c.mode, brightness := c.brightness,
                        temp := c.temp, occupancy := c.occupancy } ∧
    (saveBtnClick toLowerCase p c).page.app.localStorage.getItem "rooms" =
      some (stringifyRooms (saveBtnClick toLowerCase p c).page.rooms) ∧
    getRooms (saveBtnClick toLowerCase p c).page.app.localStorage =
      some (saveBtnClick toLowerCase p c).page.rooms := by
  have hstore := getRooms_saveRooms p.app.localStorage
    (p.rooms.set idx { name := t.name, mode := c.mode, brightness := c.brightness,
                       temp := c.temp, occupancy := c.occupancy })
  refine ⟨?_, ?_, ?_, ?_, ?_, ?_, ?_, ?_⟩
  · simp [applyBtnClick, updateTempRoomStateFromControls, ht]
  · simp [applyBtnClick, updateTempRoomStateFromControls, ht, hidx]
  · simp [applyBtnClick, updateTempRoomStateFromControls, ht, switchView]
  · intro q
    unfold applyBtnClick
    cases updateTempRoomStateFromControls q.tempRoomState c <;> simp [switchView]
  · simp [saveBtnClick, updateTempRoomStateFromControls, ht, hidx]
  · simp [saveBtnClick, updateTempRoomStateFromControls, ht, hidx]
  · simp [saveBtnClick, updateTempRoomStateFromControls, ht, hidx, switchView, showToast,
      saveRooms, LocalStorage.getItem, LocalStorage.setItem]
  · simpa [saveBtnClick, updateTempRoomStateFromControls, ht, hidx, switchView, showToast]
      using hstore

/-- Witness of C26: the bedroom of the default rooms, opened in the room-control
view, with new control values. -/
theorem apply_does_not_persist_witness :
    (applyBtnClick asciiToLowerCase
      { initialPage with
        currentRoomKey := some "bedroom",
        tempRoomState := some { name := "Bedroom", mode := "Off", brightness := 0,
                                temp := 2700, occupancy := false } }
      { mode := "Cool White", brightness := 50, temp := 4000, occupancy := true }).page.rooms =
      [{ name := "Living Room", mode := "Dimmed Warm", brightness := 70, temp := 3000,
         occupancy := false },
       { name := "Bedroom", mode := "Cool White", brightness := 50, temp := 4000,
         occupancy := true }] :=
  (apply_does_not_persist asciiToLowerCase
    { initialPage with
      currentRoomKey := some "bedroom",
      tempRoomState := some { name := "Bedroom", mode := "Off", brightness := 0,
                              temp := 2700, occupancy := false } }
    { mode := "Cool White", brightness := 50, temp := 4000, occupancy := true }
    { name := "Bedroom", mode := "Off", brightness := 0, temp := 2700, occupancy := false }
    1 rfl (by decide)).2.1

/-- C29. Remove room: with current key `key`, confirming the removal makes the room
list the rooms whose key differs from `key`, in their original order; no
remaining room has that key, every room with another key remains, and the
resulting list is the one stored. -/
theorem remove_room_filters_by_slug (toLowerCase : String → String) (p : Page) (key : String)
    (roomName : Option String) (hkey : p.currentRoomKey = some key) :
    (removeRoomConfirm toLowerCase p roomName).rooms =
      p.rooms.filter (fun r => slugify toLowerCase r.name != key) ∧
    (∀ r ∈ (removeRoomConfirm toLowerCase p roomName).rooms,
      slugify toLowerCase r.name ≠ key) ∧
    (∀ r ∈ p.rooms, slugify toLowerCase r.name ≠ key →
      r ∈ (removeRoomConfirm toLowerCase p roomName).rooms) ∧
    (∀ r ∈ p.rooms, slugify toLowerCase r.name = key →
      r ∉ (removeRoomConfirm toLowerCase p roomName).rooms) ∧
    (removeRoomConfirm toLowerCase p roomName).rooms.Sublist p.rooms ∧
    getRooms (removeRoomConfirm toLowerCase p roomName).app.localStorage =
      some (removeRoomConfirm toLowerCase p roomName).rooms := by
  have hrooms : (removeRoomConfirm toLowerCase p roomName).rooms =
      p.rooms.filter (fun r => slugify toLowerCase r.name != key) := by
    simp only [removeRoomConfirm, hkey]
    apply List.filter_congr
    intro r _
    cases h : (slugify toLowerCase r.name == key) <;> simp [hasKey, bne, h]
  refine ⟨hrooms, ?_, ?_, ?_, ?_, ?_⟩
  · intro r hr
    rw [hrooms, List.mem_filter] at hr
    simpa using hr.2
  · intro r hr hne
    rw [hrooms, List.mem_filter]
    exact ⟨hr, by simpa using hne⟩
  · intro r _ heq hmem
    rw [hrooms, List.mem_filter] at hmem
    exact (by simpa using hmem.2 : slugify toLowerCase r.name ≠ key) heq
  · rw [hrooms]
    exact List.filter_sublist _
  · simp only [removeRoomConfirm, showToast, switchView]
    exact getRooms_saveRooms _ _

/-- Witness of C29: two rooms with the key "living-room" are removed together. -/
theorem remove_room_filters_by_slug_witness :
    (removeRoomConfirm asciiToLowerCase
      { initialPage with
        rooms := defaultRooms ++ [newRoom "living-room"],
        currentRoomKey := some "living-room" }
      (some "Living Room")).rooms =
      [{ name := "Bedroom", mode := "Off", brightness := 0, temp := 2700,
         occupancy := false }] := by
  rw [(remove_room_filters_by_slug asciiToLowerCase
    { initialPage with
      rooms := defaultRooms ++ [newRoom "living-room"],
      currentRoomKey := some "living-room" }
    "living-room" (some "Living Room") rfl).1]
  decide

/-- C30. Saving from the room-control view: when some room has the key,
`showRoomControl(key)` succeeds and the Save button then changes only the
first room with that key, which gets the mode, brightness, temperature and
occupancy of the controls and keeps its name and so its key; the number of
rooms and every other position are unchanged.  In any state in which no room
has the current key the Save button leaves the room list as it was. -/
theorem save_updates_only_matching_room (toLowerCase : String → String) (p : Page)
    (key : String) (c : Controls)
    (hmatch : ∃ r ∈ p.rooms, slugify toLowerCase r.name = key) :
    (∃ p1 idx room,
      showRoomControl toLowerCase p key = .ok p1 ∧
      p.rooms[idx]? = some room ∧
      slugify toLowerCase room.name = key ∧
      (∀ j y, j < idx → p.rooms[j]? = some y → slugify toLowerCase y.name ≠ key) ∧
      (saveBtnClick toLowerCase p1 c).thrown = none ∧
      (saveBtnClick toLowerCase p1 c).page.rooms =
        p.rooms.set idx { name := room.name, mode := c.mode, brightness := c.brightness,
                          temp := c.temp, occupancy := c.occupancy } ∧
      (saveBtnClick toLowerCase p1 c).page.rooms.length = p.rooms.length ∧
      (saveBtnClick toLowerCase p1 c).page.rooms[idx]? =
        some { name := room.name, mode := c.mode, brightness := c.brightness,
               temp := c.temp, occupancy := c.occupancy } ∧
      (∀ j, j ≠ idx → (saveBtnClick toLowerCase p1 c).page.rooms[j]? = p.rooms[j]?)) ∧
    (∀ q : Page, (∀ r ∈ q.rooms, hasKey toLowerCase q.currentRoomKey r = false) →
      (saveBtnClick toLowerCase q c).page.rooms = q.rooms) := by
  constructor
  · cases hfi : findIndex (hasKey toLowerCase (some key)) p.rooms with
    | none =>
      obtain ⟨r, hr, hrk⟩ := hmatch
      have := (findIndex_none _ _).1 hfi r hr
      rw [hasKey_some_false] at this
      exact absurd hrk this
    | some idx =>
      obtain ⟨room, hget, hq, hfind, hfirst⟩ := findIndex_some _ _ _ hfi
      have hlt : idx < p.rooms.length := by
        rcases Nat.lt_or_ge idx p.rooms.length with h | h
        · exact h
        · rw [List.getElem?_eq_none (by omega)] at hget
          exact absurd hget (by simp)
      refine ⟨{ p with currentRoomKey := some key, tempRoomState := some room,
                       app := switchView p.app "room-control-view" }, idx, room, ?_, hget,
        (hasKey_some _ _ _).1 hq, ?_, ?_, ?_, ?_, ?_, ?_⟩
      · simp [showRoomControl, hfind]
      · intro j y hj hy
        exact (hasKey_some_false _ _ _).1 (hfirst j y hj hy)
      · simp [saveBtnClick, updateTempRoomStateFromControls, hfi]
      · simp [saveBtnClick, updateTempRoomStateFromControls, hfi]
      · simp [saveBtnClick, updateTempRoomStateFromControls, hfi]
      · simp [saveBtnClick, updateTempRoomStateFromControls, hfi, List.getElem?_set, hlt]
      · intro j hj
        simp [saveBtnClick, updateTempRoomStateFromControls, hfi, List.getElem?_set,
          Ne.symm hj]
  · intro q hq
    have hnone := (findIndex_none (hasKey toLowerCase q.currentRoomKey) q.rooms).2 hq
    unfold saveBtnClick
    cases updateTempRoomStateFromControls q.tempRoomState c <;> simp [hnone]

/-- Witness of C30: the bedroom of the default rooms is opened and saved with new
control values; the living room is untouched. -/
theorem save_updates_only_matching_room_witness :
    ∃ p1, showRoomControl asciiToLowerCase initialPage "bedroom" = .ok p1 ∧
      (saveBtnClick asciiToLowerCase p1
        { mode := "Cool White", brightness := 50, temp := 4000,
          occupancy := true }).page.rooms[0]? = defaultRooms[0]? := by
  obtain ⟨p1, idx, room, hshow, hget, hslug, hfirst, _, _, _, _, hother⟩ :=
    (save_updates_only_matching_room asciiToLowerCase initialPage "bedroom"
      { mode := "Cool White", brightness := 50, temp := 4000, occupancy := true }
      ⟨_, List.mem_cons_of_mem _ (List.mem_cons_self _ _), by decide⟩).1
  refine ⟨p1, hshow, ?_⟩
  have hidx : 0 ≠ idx := by
    intro h
    subst h
    have h0 : some room = some (⟨"Living Room", "Dimmed Warm", 70, 3000, false⟩ : Room) :=
      hget.symm
    rw [Option.some.inj h0] at hslug
    exact absurd hslug (by decide)
  rw [hother 0 hidx]
  rfl

/-! ## Edit rows that outlive their slot: the invariants -/

/-- C27. The code at the failing input: the committed schedule has one complete slot;
after apply-to-weekdays, the edit click on row 4 and the discard, the save
button of that edit row with the complete values Friday, 10:00, 11:00 leaves a
draft with holes at positions 1 to 3.  The commit writes the holes as `null`:
the stored document has three entries that are no slots and does not read back
as an array of slots.  The same click with an empty start time changes
neither the draft nor the dirty flag. -/
theorem stale_row_save_commits_holes :
    (∀ slot ∈ staleEditRow.schedule,
      slot.day ≠ "" ∧ slot.startTime ≠ "" ∧ slot.endTime ≠ "") ∧
    (∀ slot ∈ staleEditRow.tempSchedule,
      slot.day ≠ "" ∧ slot.startTime ≠ "" ∧ slot.endTime ≠ "") ∧
    (saveSlotBtnClick staleEditRow 4
      { day := "Friday", startTime := "10:00", mode := "Off", endTime := "11:00",
        enabled := true }).tempSchedule =
      [some { day := "Monday", startTime := "08:00", mode := "Off", endTime := "09:00",
              enabled := true },
       none, none, none,
       some { day := "Friday", startTime := "10:00", mode := "Off", endTime := "11:00",
              enabled := true }] ∧
    (commitSparse staleEditRow.localStorage
      (saveSlotBtnClick staleEditRow 4
        { day := "Friday", startTime := "10:00", mode := "Off", endTime := "11:00",
          enabled := true })).getItem "schedule" =
      some (.arr
        [Slot.toJson { day := "Monday", startTime := "08:00", mode := "Off",
                       endTime := "09:00", enabled := true },
         .null, .null, .null,
         Slot.toJson { day := "Friday", startTime := "10:00", mode := "Off",
                       endTime := "11:00", enabled := true }]) ∧
    getSchedule
      (commitSparse staleEditRow.localStorage
        (saveSlotBtnClick staleEditRow 4
          { day := "Friday", startTime := "10:00", mode := "Off", endTime := "11:00",
            enabled := true })) = none ∧
    saveSlotBtnClick staleEditRow 4
      { day := "Friday", startTime := "", mode := "Off", endTime := "11:00",
        enabled := true } =
      { tempSchedule := staleEditRow.tempSchedule.map some,
        scheduleChanged := staleEditRow.scheduleChanged } := by
  refine ⟨by decide, by decide, by decide, rfl, by decide, by decide⟩

/-- C28. The code at the failing input: after the discard the dirty flag is clear and
the draft equals the committed schedule (both empty), but the two new rows are
still in the table.  A click on the save button pushes the complete row into
the draft and sets `invalidEntries` for the other one; `showModal` throws,
nothing is committed and nothing resets the draft: the dirty flag is clear
while the draft holds one slot and the committed schedule none. -/
theorem save_after_discard_breaks_dirty_soundness :
    discardedWithPendingRows.tempSchedule = [] ∧
    discardedWithPendingRows.schedule = [] ∧
    isDirty discardedWithPendingRows = false ∧
    discardedWithPendingRows.newScheduleRows =
      [{ day := "Monday", startTime := "07:00", mode := "Dimmed Warm", endTime := "08:00",
         enabled := true },
       { day := "Monday", startTime := "09:00", mode := "Dimmed Warm", endTime := "",
         enabled := true }] ∧
    (saveRows discardedWithPendingRows.newScheduleRows
      discardedWithPendingRows.tempSchedule).2 = true ∧
    (saveScheduleBtnClick discardedWithPendingRows).modal = none ∧
    isDirty (saveScheduleBtnClick discardedWithPendingRows) = false ∧
    (saveScheduleBtnClick discardedWithPendingRows).tempSchedule =
      [{ day := "Monday", startTime := "07:00", mode := "Dimmed Warm", endTime := "08:00",
         enabled := true }] ∧
    (saveScheduleBtnClick discardedWithPendingRows).schedule = [] ∧
    (saveScheduleBtnClick discardedWithPendingRows).tempSchedule ≠
      (saveScheduleBtnClick discardedWithPendingRows).schedule := by
  decide

end SmartLighting
